import Mathlib

/-!
# esp-roomba-mqtt: the device-protocol bridge of `src/main.cpp`

A shallow embedding of the telemetry decoder (`parseRoombaStateFromStreamPacket`),
the state reconciliation (`readSensorPacket`), the wake sequence (`wakeup`) and the
command dispatcher (`performCommand`, `sendPacket`) and the published battery level
(`batteryLevel`), followed by theorems about them.

Conventions.
* Machine integers are `Int`/`Nat` with explicit wrapping (`toInt16`, `toByte`, ...).
* Calls into the Arduino core and the Roomba library appear as parameters or as
  documented definitions (`atoi`, `strtokAll`, `substring`, `RoombaLib`).
* A byte buffer is a function from offsets to bytes: `packet i` is what the C
  expression `packet[i]` reads, also at offsets beyond the `length` argument,
  where the C code reads whatever the memory behind the pointer holds.
* Bytes written by `Serial.write` are appended to the `serial` trace of `World`.
* `float` values are exact dyadic rationals (`Binary32`), and each `float`
  operation rounds its exact result to 24 significant bits, ties to even.
-/

namespace RoombaMqtt

/-! ## Machine integers -/

/-- Conversion of an integer to `uint8_t`. -/
def toByte (n : Int) : Int := n % 256

/-- Conversion of an integer to `uint16_t`. -/
def toUInt16 (n : Int) : Int := n % 65536

/-- Conversion of an integer to `int16_t` (two's complement wrap). -/
def toInt16 (n : Int) : Int := (n + 32768) % 65536 - 32768

/-- Conversion of an integer to `int32_t` (two's complement wrap). -/
def toInt32 (n : Int) : Int := (n + 2147483648) % 4294967296 - 2147483648

/-! ## Data model -/

/-- The `RoombaState` struct (main.cpp, lines 28-53). -/
structure RoombaState where
  distance : Int
  chargingState : Int
  voltage : Int
  current : Int
  charge : Int
  capacity : Int
  temp : Int
  chargingSourcesAvailable : Int
  OIMode : Int
  leftencodercounts : Int
  rightencodercounts : Int
  stasis : Int
  cleaning : Bool
  docked : Bool
  returning : Bool
  timestamp : Int
  sent : Bool
deriving DecidableEq, Repr

/-- The value of `RoombaState rs = {};`: every member zero-initialised. -/
def RoombaState.zero : RoombaState :=
  { distance := 0, chargingState := 0, voltage := 0, current := 0, charge := 0,
    capacity := 0, temp := 0, chargingSourcesAvailable := 0, OIMode := 0,
    leftencodercounts := 0, rightencodercounts := 0, stasis := 0,
    cleaning := false, docked := false, returning := false,
    timestamp := 0, sent := false }

/-- A byte buffer seen through a `uint8_t *`: offset to content. -/
abbrev Packet := Nat → Nat

/-- The C expression `packet[i]`, a `uint8_t` promoted to `int`. -/
def byteAt (packet : Packet) (i : Nat) : Int := ((packet i % 256 : Nat) : Int)

/-- The C expression `packet[i+1] * 256 + packet[i+2]`. -/
def wordAt (packet : Packet) (i : Nat) : Int :=
  byteAt packet (i + 1) * 256 + byteAt packet (i + 2)

/-- A buffer whose first bytes are those of the list; the memory behind it is zero. -/
def Packet.ofList (l : List Nat) : Packet := fun i => l.getD i 0

/-! ## Telemetry decoder -/

/-- What a run of `parseRoombaStateFromStreamPacket` leaves behind: the returned
boolean, the target state, and three ghost observations of the run (the final
value of the scan index `i`, the offsets at which a packet id was read, and all
offsets read from the buffer, both in the order of the run). -/
structure ParseResult where
  ok : Bool
  state : RoombaState
  index : Nat
  ids : List Nat
  reads : List Nat
deriving DecidableEq, Repr

/-- The second `while` loop of `parseRoombaStateFromStreamPacket`
(main.cpp, lines 369-442), started with scan index `i`, target `state`, and the
ghost traces `ids` and `reads` collected so far. -/
def scanLoop (packet : Packet) (length : Int) (i : Nat) (state : RoombaState)
    (ids reads : List Nat) : ParseResult :=
  if _h : (i : Int) < length then
    match packet i % 256 with
    | 0 => scanLoop packet length (i + 27) state (ids ++ [i]) (reads ++ [i])
    | 1 => scanLoop packet length (i + 11) state (ids ++ [i]) (reads ++ [i])
    | 13 => scanLoop packet length (i + 2) state (ids ++ [i]) (reads ++ [i])
    | 19 =>
      scanLoop packet length (i + 3) { state with distance := toInt16 (wordAt packet i) }
        (ids ++ [i]) (reads ++ [i, i + 1, i + 2])
    | 21 =>
      scanLoop packet length (i + 2) { state with chargingState := byteAt packet (i + 1) }
        (ids ++ [i]) (reads ++ [i, i + 1])
    | 22 =>
      scanLoop packet length (i + 3) { state with voltage := toUInt16 (wordAt packet i) }
        (ids ++ [i]) (reads ++ [i, i + 1, i + 2])
    | 23 =>
      scanLoop packet length (i + 3) { state with current := toInt16 (wordAt packet i) }
        (ids ++ [i]) (reads ++ [i, i + 1, i + 2])
    | 24 =>
      scanLoop packet length (i + 2) { state with temp := toInt16 (byteAt packet (i + 1)) }
        (ids ++ [i]) (reads ++ [i, i + 1])
    | 25 =>
      scanLoop packet length (i + 3) { state with charge := toInt16 (wordAt packet i) }
        (ids ++ [i]) (reads ++ [i, i + 1, i + 2])
    | 26 =>
      scanLoop packet length (i + 3) { state with capacity := toUInt16 (wordAt packet i) }
        (ids ++ [i]) (reads ++ [i, i + 1, i + 2])
    | 34 =>
      scanLoop packet length (i + 2)
        { state with chargingSourcesAvailable := byteAt packet (i + 1) }
        (ids ++ [i]) (reads ++ [i, i + 1])
    | 35 =>
      scanLoop packet length (i + 2) { state with OIMode := byteAt packet (i + 1) }
        (ids ++ [i]) (reads ++ [i, i + 1])
    | 7 => scanLoop packet length (i + 2) state (ids ++ [i]) (reads ++ [i])
    | 43 =>
      scanLoop packet length (i + 3)
        { state with leftencodercounts := toInt16 (wordAt packet i) }
        (ids ++ [i]) (reads ++ [i, i + 1, i + 2])
    | 44 =>
      scanLoop packet length (i + 3)
        { state with rightencodercounts := toInt16 (wordAt packet i) }
        (ids ++ [i]) (reads ++ [i, i + 1, i + 2])
    | 58 =>
      scanLoop packet length (i + 2) { state with stasis := byteAt packet (i + 1) }
        (ids ++ [i]) (reads ++ [i, i + 1])
    | 128 => scanLoop packet length (i + 2) state (ids ++ [i]) (reads ++ [i])
    | _ =>
      { ok := false, state := state, index := i, ids := ids ++ [i], reads := reads ++ [i] }
  else
    { ok := true, state := state, index := i, ids := ids, reads := reads }
termination_by (length - i).toNat
decreasing_by all_goals (simp_wf; omega)

/-- The function `parseRoombaStateFromStreamPacket(packet, length, state)`
(main.cpp, lines 360-443). `now` is the value `millis()` returns, converted to
`int`. The first `while` loop only counts `j` up to `length` and has no effect. -/
def parseRoombaStateFromStreamPacket (packet : Packet) (length : Int) (now : Int)
    (state : RoombaState) : ParseResult :=
  scanLoop packet length 0 { state with timestamp := now } [] []

/-! ## Global state and the serial link -/

/-- The globals the modelled functions touch: `roombaState`, `distanceSum`, the
bytes written so far to `Serial` (oldest first), and whether `ESP.restart()` has
been called. The last component is not a global: `stack` holds the characters,
up to the first null byte, that lie in the uninitialised stack memory where
`performCommand` places its array `commandArray`; they are arbitrary, and the
code reads them only when the array has length zero. -/
structure World where
  roombaState : RoombaState
  distanceSum : Int
  serial : List Nat
  restarted : Bool
  stack : List Char
deriving DecidableEq, Repr

/-- The call `Serial.write(n)` with an `int` argument: one byte, `(uint8_t)n`. -/
def serialWrite (w : World) (n : Int) : World :=
  { w with serial := w.serial ++ [(toByte n).toNat] }

/-- Modelled from the spec: the Roomba library behind `Roomba.h` is not part of
src/. Its calls `cover()`, `power()`, `spot()` and `dock()` each write one
single-byte opcode to the serial link; the four opcodes are parameters. -/
structure RoombaLib where
  cover : Nat
  power : Nat
  spot : Nat
  dock : Nat
deriving DecidableEq, Repr

/-- The opcodes of the iRobot Open Interface: Clean 135 and Dock 143 (as in the
comments of `wakeOnDock`), Power 133 and Spot 134. -/
def RoombaLib.oi : RoombaLib := { cover := 135, power := 133, spot := 134, dock := 143 }

/-! ## Wake sequence -/

/-- The function `wakeup()` (main.cpp, lines 92-113). The pulse on the BRC pin
and the two delays do not touch the modelled globals. -/
def wakeup (w : World) : World :=
  if w.roombaState.OIMode = 0 then
    serialWrite w 128
  else if w.roombaState.OIMode = 1 then
    serialWrite w 128
  else
    w

/-! ## C strings -/

/-- The blank, the only delimiter `sendPacket` hands to `strtok`. -/
def blank : Char := Char.ofNat 32

/-- The predicate `isspace` of the C locale. -/
def isSpaceC (c : Char) : Bool :=
  c.toNat = 32 || (9 ≤ c.toNat && c.toNat ≤ 13)

/-- The tokens that successive calls `strtok(s, " ")`, `strtok(0, " ")`, ... return
until the null pointer: the maximal blank-free runs of `s`, in order. `cur` is
the token being read. -/
def strtokAux : List Char → List Char → List (List Char)
  | [], cur => if cur = [] then [] else [cur]
  | c :: s, cur =>
    if c = blank then
      if cur = [] then strtokAux s [] else cur :: strtokAux s []
    else strtokAux s (cur ++ [c])

/-- All tokens of a C string with the blank as delimiter. -/
def strtokAll (s : List Char) : List (List Char) := strtokAux s []

/-- The value of the leading decimal digits of `s`, continuing from `acc`. -/
def digitsValue : List Char → Nat → Nat
  | [], acc => acc
  | c :: s, acc =>
    if 48 ≤ c.toNat ∧ c.toNat ≤ 57 then digitsValue s (acc * 10 + (c.toNat - 48)) else acc

/-- The result of `strtol` clamped to the range of a 32-bit `long`. -/
def clampLong (n : Int) : Int :=
  if n > 2147483647 then 2147483647 else if n < -2147483648 then -2147483648 else n

/-- The C function `atoi`, as `(int)strtol(s, NULL, 10)`: leading white space,
an optional sign, then decimal digits; anything else ends the number, and a
string without digits gives 0. -/
def atoi (s : List Char) : Int :=
  match s.dropWhile isSpaceC with
  | [] => 0
  | c :: t =>
    if c = Char.ofNat 45 then clampLong (-(digitsValue t 0 : Int))
    else if c = Char.ofNat 43 then clampLong (digitsValue t 0)
    else clampLong (digitsValue (c :: t) 0)

/-- Arduino `String::substring(left, right)`: the characters at the offsets from
`left` up to, not including, `right` (the two swapped when `left > right`). -/
def substring (s : String) (left right : Nat) : String :=
  ⟨(s.data.take (max left right)).drop (min left right)⟩

/-- Arduino `String::substring(left)`: the characters from offset `left` on. -/
def substringFrom (s : String) (left : Nat) : String :=
  substring s left s.length

/-- Arduino `String::toCharArray(buf, bufsize)`: the C string found in `buf` after
the call, given the C string `buf` held before. With `bufsize = 0` the call returns
at once and stores nothing, so `buf` still holds what it held; otherwise it holds
the first `bufsize - 1` characters of the string. -/
def toCharArray (s : String) (bufsize : Nat) (buf : List Char) : List Char :=
  if bufsize = 0 then buf else s.data.take (bufsize - 1)

/-! ## Command dispatcher -/

/-- The function `sendPacket(packetPayload)` (main.cpp, lines 150-158): one
`Serial.write(atoi(token))` for each token. -/
def sendPacket (w : World) (packetPayload : List Char) : World :=
  (strtokAll packetPayload).foldl (fun w command => serialWrite w (atoi command)) w

/-- The song definition and play command that `locate` sends. -/
def locateSong : String := "140 1 3 57 8 75 8 73 16 0 131 0 141 1"

/-- The function `performCommand(cmdchar)` (main.cpp, lines 160-247): the world
after the call and the returned boolean. `cmdchar` holds the characters of the
null-terminated string. For `reboot` the model records the restart and then
goes on as if `ESP.restart()` returned. For the bare command `packet` the array
`commandArray` has length zero and nothing is stored in it: `sendPacket` then
reads the arbitrary stack content `w.stack` (what `strtok` writes into that
memory is not modelled). -/
def performCommand (lib : RoombaLib) (w : World) (cmdchar : String) : World × Bool :=
  let w := wakeup w
  let cmd := cmdchar
  let rs := w.roombaState
  if cmd = "clean" then
    let w :=
      if rs.cleaning then w
      else serialWrite { w with roombaState := { rs with cleaning := true } } lib.cover
    ({ w with roombaState := { w.roombaState with returning := false } }, true)
  else if cmd = "turn_off" then
    let w := serialWrite w lib.power
    ({ w with roombaState := { rs with cleaning := false, returning := false } }, true)
  else if cmd = "toggle" ∨ cmd = "start_pause" then
    let w :=
      if rs.cleaning then
        { serialWrite w lib.power with
          roombaState := { rs with cleaning := false, returning := false } }
      else
        { serialWrite w lib.cover with
          roombaState := { rs with cleaning := true, returning := false } }
    (serialWrite w lib.cover, true)
  else if cmd = "stop" then
    if rs.cleaning || rs.returning then
      (serialWrite { w with roombaState := { rs with cleaning := false, returning := false } }
        lib.cover, true)
    else (w, true)
  else if cmd = "clean_spot" then
    (serialWrite { w with roombaState := { rs with cleaning := true, returning := false } }
      lib.spot, true)
  else if cmd = "locate" then
    if rs.cleaning || rs.returning then (w, true)
    else
      let commandArray := toCharArray locateSong 39 w.stack
      (serialWrite (sendPacket w commandArray) 128, true)
  else if cmd = "return_to_base" then
    (serialWrite { w with roombaState := { rs with returning := true } } lib.dock, true)
  else if cmd = "send_status" then
    (w, true)
  else if substring cmd 0 6 = "packet" then
    let commandArray := toCharArray (substringFrom cmd 7) (cmd.length - 6) w.stack
    (sendPacket w commandArray, true)
  else if cmd = "sleep" then
    (w, true)
  else if cmd = "reboot" then
    ({ w with restarted := true }, true)
  else
    (w, false)

/-! ## State reconciliation -/

/-- The locals `parsed` and `rs` of `readSensorPacket` after line 458: the decode
of the received buffer into a zeroed state. `packetLength` is a `uint8_t`. -/
def snapshot (packet : Packet) (packetLength : Nat) (now : Int) : ParseResult :=
  parseRoombaStateFromStreamPacket packet ((packetLength % 256 : Nat) : Int) now
    RoombaState.zero

/-- The derived-flag recomputation of `readSensorPacket` (main.cpp, lines 471-481). -/
def deriveFlags (rs : RoombaState) : RoombaState :=
  if rs.current < -400 && !rs.returning then
    { rs with cleaning := true, docked := false }
  else if rs.current > -50 then
    { rs with docked := true, cleaning := false, returning := false }
  else
    { rs with cleaning := false, docked := false }

/-- The function `readSensorPacket()` (main.cpp, lines 453-488). The outcome of
`roomba.pollSensors` is given by `received`, the content `packet` of
`roombaPacket` and `packetLength`. -/
def readSensorPacket (w : World) (received : Bool) (packet : Packet) (packetLength : Nat)
    (now : Int) : World :=
  if received then
    let r := snapshot packet packetLength now
    if r.ok && r.state.temp != 0 then
      let currentlyReturning := w.roombaState.returning
      let rs := { r.state with returning := currentlyReturning }
      { w with
        roombaState := deriveFlags rs
        distanceSum := toInt32 (w.distanceSum + rs.distance) }
    else w
  else w

/-! ## Vocabulary of the properties -/

/-- The packet ids with a `case` label in the `switch` of the decoder, in the
order of the labels. -/
def handledIds : List Nat :=
  [0, 1, 13, 19, 21, 22, 23, 24, 25, 26, 34, 35, 7, 43, 44, 58, 128]

/-- The packet ids the specification lists as accepted: the twelve table fields,
the two legacy bulk markers and the marker 128. -/
def specIds : List Nat :=
  [19, 21, 22, 23, 24, 25, 26, 34, 35, 43, 44, 58, 0, 1, 128]

/-- The two bytes of a 16-bit field on the wire, high byte first, negative values
in two's complement. -/
def bigEndian16 (v : Int) : List Nat :=
  [(v % 65536 / 256).toNat, (v % 65536 % 256).toNat]

/-- The byte of an 8-bit field on the wire, negative values in two's complement. -/
def wireByte (v : Int) : List Nat := [(v % 256).toNat]

/-- A synthetic frame as the specification describes it: for each of the twelve
table fields, in the order of `sensors`, the packet id followed by the field value. -/
def encodeFrame (s : RoombaState) : List Nat :=
  [19] ++ bigEndian16 s.distance ++ [21] ++ wireByte s.chargingState ++
  [22] ++ bigEndian16 s.voltage ++ [23] ++ bigEndian16 s.current ++
  [24] ++ wireByte s.temp ++ [25] ++ bigEndian16 s.charge ++
  [26] ++ bigEndian16 s.capacity ++ [34] ++ wireByte s.chargingSourcesAvailable ++
  [35] ++ wireByte s.OIMode ++ [43] ++ bigEndian16 s.leftencodercounts ++
  [44] ++ bigEndian16 s.rightencodercounts ++ [58] ++ wireByte s.stasis

/-- The decode of a synthetic frame of `s` into a zeroed state. -/
def decodeFrame (s : RoombaState) (now : Int) : ParseResult :=
  parseRoombaStateFromStreamPacket (Packet.ofList (encodeFrame s)) (encodeFrame s).length now
    RoombaState.zero

/-- A world with the given state, nothing accumulated, nothing written, and an
empty string in the stack memory. -/
def World.init (rs : RoombaState) : World :=
  { roombaState := rs, distanceSum := 0, serial := [], restarted := false, stack := [] }

/-- A sample device state: docked telemetry, operating mode passive, with the
`returning` flag set. -/
def sampleState : RoombaState :=
  { RoombaState.zero with
    voltage := 16000, current := -120, charge := 1200, capacity := 3000, temp := 25,
    OIMode := 1, returning := true, timestamp := 1000, sent := true }

/-- The eleven commands of the dispatcher table that are matched as whole strings. -/
def namedCommands : List String :=
  ["clean", "turn_off", "toggle", "start_pause", "stop", "clean_spot", "locate",
   "return_to_base", "send_status", "sleep", "reboot"]

/-- The raw-passthrough form of the specification: `packet`, a blank, and then the
opcode list (any text, since every token of it is turned into an opcode). -/
def isPacketCommand (cmd : String) : Prop := cmd.data.take 7 = "packet ".data

instance (cmd : String) : Decidable (isPacketCommand cmd) := by
  unfold isPacketCommand
  infer_instance

/-- A sample world in which the device is cleaning and the last decoded operating
mode is Off (0), as in a freshly zeroed state. -/
def cleaningWorld : World :=
  World.init { RoombaState.zero with cleaning := true, current := -600, temp := 30 }

/-- The byte that `Serial.write` puts on the link for the opcode `n`. -/
def wireOpcode (n : Nat) : Nat := (toByte n).toNat

/-- The opcode the debug command `quit` writes to stop the Roomba
(main.cpp, line 284). -/
def quitOpcode : Nat := 173

/-- A sample world: idle device (neither cleaning nor returning), mode Safe (2). -/
def idleWorld : World :=
  World.init { RoombaState.zero with OIMode := 2, temp := 22, current := -200, docked := true }

/-- The decimal rendering of a number, as a C string. -/
def decimal (b : Nat) : List Char := (toString b).data

/-- The tokens joined by single blanks. -/
def joinBlank : List (List Char) → List Char
  | [] => []
  | [t] => t
  | t :: ts => t ++ blank :: joinBlank ts

/-- The command `packet`, a blank, and the decimal renderings of the given
numbers separated by single blanks. -/
def packetCommand (bs : List Nat) : String :=
  ⟨"packet ".data ++ joinBlank (bs.map decimal)⟩

/-- The value `sendStatusHA` stores under the key `state` (main.cpp, lines
602-613). `chargeAvailableDock` is the constant `Roomba::ChargeAvailableDock` of
the Roomba library. -/
def sendStatusHAState (chargeAvailableDock : Int) (rs : RoombaState) : String :=
  if rs.returning then "returning"
  else if rs.cleaning then "cleaning"
  else if rs.chargingSourcesAvailable = chargeAvailableDock then "docked"
  else "idle"

/-- The `state` value as the specification words it, with the `docked` flag of
the device state in the third place. -/
def specStatusState (rs : RoombaState) : String :=
  if rs.returning then "returning"
  else if rs.cleaning then "cleaning"
  else if rs.docked then "docked"
  else "idle"

/-- One poll of the sensor stream as `readSensorPacket` sees it: the outcome of
`roomba.pollSensors` and the value of `millis()` at the decode. -/
structure SensorInput where
  received : Bool
  packet : Packet
  packetLength : Nat
  now : Int

/-- A sequence of calls of `readSensorPacket`, one for each input, oldest first. -/
def readSensorPackets (w : World) (inputs : List SensorInput) : World :=
  inputs.foldl (fun w x => readSensorPacket w x.received x.packet x.packetLength x.now) w

/-- The integer nearest to `n / d`, a tie going to the even neighbour. -/
def roundHalfEven (n d : Nat) : Nat :=
  if 2 * (n % d) < d then n / d
  else if d < 2 * (n % d) then n / d + 1
  else if n / d % 2 = 0 then n / d else n / d + 1

/-- The least scale `s'`, searched upwards from `s`, with `2 ^ 23 ≤ (n / d) * 2 ^ s'`:
the scale at which `n / d` has a 24-bit mantissa. -/
def findShift : Nat → Nat → Nat → Nat → Nat
  | 0, _, _, s => s
  | fuel + 1, n, d, s => if 2 ^ 23 * d ≤ n * 2 ^ s then s else findShift fuel n d (s + 1)

/-- A non-negative `float` (IEEE 754 binary32) below `2 ^ 24`: the value
`mantissa / 2 ^ scale`. -/
structure Binary32 where
  mantissa : Nat
  scale : Nat
deriving DecidableEq, Repr

/-- The `float` nearest to the rational `n / d` (round to nearest, ties to even),
for `n / d` below `2 ^ 24` and not below the smallest normal number. -/
def roundBinary32 (n d : Nat) : Binary32 :=
  if n = 0 then { mantissa := 0, scale := 0 }
  else
    { mantissa := roundHalfEven (n * 2 ^ findShift 149 n d 0) d
      scale := findShift 149 n d 0 }

/-- The `float` quotient `(float)a / (float)b` of two integers below `2 ^ 24`, which
the conversion to `float` represents exactly. -/
def floatDiv (a b : Nat) : Binary32 := roundBinary32 a b

/-- The `float` product of `x` and the integer `k`. -/
def floatMul (x : Binary32) (k : Nat) : Binary32 :=
  roundBinary32 (x.mantissa * k) (2 ^ x.scale)

/-- The conversion `(int)x` of a non-negative `float`: its integer part. -/
def floatToInt (x : Binary32) : Nat := x.mantissa / 2 ^ x.scale

/-- The value `(int)(((float)roombaState.charge / (float)roombaState.capacity) * 100)`
that `sendStatus` publishes as `batteryLevel` (main.cpp, line 584) and
`sendStatusHA` as `battery_level` (line 614). The members are read through their
types `int16_t` and `uint16_t`. A negative charge gives the negated result of its
magnitude; with capacity 0 the quotient is infinite or not a number and its
conversion to `int` is undefined. -/
def batteryLevel (rs : RoombaState) : Option Int :=
  if toUInt16 rs.capacity = 0 then none
  else
    let level :=
      floatToInt (floatMul (floatDiv (toInt16 rs.charge).natAbs (toUInt16 rs.capacity).natAbs) 100)
    some (if toInt16 rs.charge < 0 then -(level : Int) else (level : Int))

/-! ## Lemmas on the scan loop -/

theorem scanLoop_ids_subset (packet : Packet) (length : Int) (i : Nat) (state : RoombaState)
    (ids reads : List Nat) (p : Nat) (hp : p ∈ ids) :
    p ∈ (scanLoop packet length i state ids reads).ids := by
  induction i, state, ids, reads using scanLoop.induct packet length
  case case19 i state ids reads h =>
    rw [scanLoop]
    simpa [h] using hp
  case case18 =>
    rw [scanLoop]
    simp_all
  all_goals
    rename_i i state ids reads hlt hm ih
    rw [scanLoop]
    simp only [hlt, hm, dite_true]
    exact ih (by simp [hp])

theorem scanLoop_unhandled (packet : Packet) (length : Int) (i : Nat) (state : RoombaState)
    (ids reads : List Nat) (p : Nat)
    (hinv : ∀ q ∈ ids, packet q % 256 ∈ handledIds)
    (hp : p ∈ (scanLoop packet length i state ids reads).ids)
    (hbad : packet p % 256 ∉ handledIds) :
    (scanLoop packet length i state ids reads).ok = false := by
  induction i, state, ids, reads using scanLoop.induct packet length
  case case18 =>
    rw [scanLoop]
    simp_all
  case case19 i state ids reads h =>
    rw [scanLoop] at hp
    simp [h] at hp
    exact absurd (hinv p hp) hbad
  all_goals
    rename_i i state ids reads hlt hm ih
    rw [scanLoop] at hp ⊢
    simp only [hlt, hm, dite_true] at hp ⊢
    apply ih _ hp
    intro q hq
    simp at hq
    rcases hq with hq | hq
    · exact hinv q hq
    · subst hq; rw [hm]; decide

theorem scanLoop_temp (packet : Packet) (length : Int) (i : Nat) (state : RoombaState)
    (ids reads : List Nat)
    (hno : ∀ p ∈ (scanLoop packet length i state ids reads).ids, packet p % 256 ≠ 24) :
    (scanLoop packet length i state ids reads).state.temp = state.temp := by
  induction i, state, ids, reads using scanLoop.induct packet length
  case case8 i state ids reads hlt hm ih =>
    exfalso
    rw [scanLoop] at hno
    simp only [hlt, hm, dite_true] at hno
    exact hno i (scanLoop_ids_subset _ _ _ _ _ _ i (by simp)) hm
  case case18 =>
    rw [scanLoop]
    simp_all
  case case19 i state ids reads h =>
    rw [scanLoop]
    simp [h]
  all_goals
    rename_i i state ids reads hlt hm ih
    rw [scanLoop] at hno ⊢
    simp only [hlt, hm, dite_true] at hno ⊢
    exact ih hno

theorem snapshot_empty (packet : Packet) (packetLength : Nat) (now : Int)
    (h : packetLength % 256 = 0) :
    (snapshot packet packetLength now).ok = true ∧
      (snapshot packet packetLength now).state.temp = 0 := by
  unfold snapshot parseRoombaStateFromStreamPacket
  rw [scanLoop]
  simp [h, RoombaState.zero]

theorem snapshot_without_temperature (packet : Packet) (packetLength : Nat) (now : Int)
    (h : ∀ p ∈ (snapshot packet packetLength now).ids, packet p % 256 ≠ 24) :
    (snapshot packet packetLength now).state.temp = 0 := by
  unfold snapshot parseRoombaStateFromStreamPacket at h ⊢
  rw [scanLoop_temp _ _ _ _ _ _ h]
  rfl

theorem scanLoop_ids_lt (packet : Packet) (length : Int) (i : Nat) (state : RoombaState)
    (ids reads : List Nat) (hinv : ∀ q ∈ ids, (q : Int) < length) :
    ∀ p ∈ (scanLoop packet length i state ids reads).ids, (p : Int) < length := by
  induction i, state, ids, reads using scanLoop.induct packet length
  case case18 i state ids reads hlt _ _ _ _ _ _ _ _ _ _ _ _ _ _ _ _ _ =>
    rw [scanLoop]
    intro p hp
    simp_all
    rcases hp with hp | hp
    · exact hinv p hp
    · subst hp; exact hlt
  case case19 i state ids reads h =>
    rw [scanLoop]
    simpa [h] using hinv
  all_goals
    rename_i i state ids reads hlt hm ih
    rw [scanLoop]
    simp only [hlt, hm, dite_true]
    apply ih
    intro q hq
    simp at hq
    rcases hq with hq | hq
    · exact hinv q hq
    · subst hq; exact hlt

theorem scanLoop_index_ge (packet : Packet) (length : Int) (i : Nat) (state : RoombaState)
    (ids reads : List Nat)
    (hok : (scanLoop packet length i state ids reads).ok = true) :
    length ≤ (scanLoop packet length i state ids reads).index := by
  induction i, state, ids, reads using scanLoop.induct packet length
  case case18 =>
    rw [scanLoop] at hok
    simp_all
  case case19 i state ids reads h =>
    rw [scanLoop]
    simp only [h, dite_false]
    omega
  all_goals
    rename_i i state ids reads hlt hm ih
    rw [scanLoop] at hok ⊢
    simp only [hlt, hm, dite_true] at hok ⊢
    exact ih hok

/-- Every offset at which the decoder reads a packet id lies below `length`: the
loop condition guards the id byte (it does not guard the field bytes). -/
theorem parse_ids_within_length (packet : Packet) (length now : Int) (state : RoombaState) :
    ∀ p ∈ (parseRoombaStateFromStreamPacket packet length now state).ids, (p : Int) < length :=
  scanLoop_ids_lt packet length 0 _ [] [] (by simp)

/-- A successful decode ends with the scan index at or beyond `length`. -/
theorem parse_ok_index_ge (packet : Packet) (length now : Int) (state : RoombaState)
    (hok : (parseRoombaStateFromStreamPacket packet length now state).ok = true) :
    length ≤ (parseRoombaStateFromStreamPacket packet length now state).index :=
  scanLoop_index_ge packet length 0 _ [] [] hok

/-- Round trip of a synthetic frame for every field assignment within the declared
ranges, provided the temperature is not negative: the decode succeeds, consumes
the frame exactly, and recovers the twelve fields. -/
theorem frame_roundtrip_nonnegative_temperature (s : RoombaState) (now : Int)
    (hdistance : -32768 ≤ s.distance ∧ s.distance ≤ 32767)
    (hcurrent : -32768 ≤ s.current ∧ s.current ≤ 32767)
    (hcharge : -32768 ≤ s.charge ∧ s.charge ≤ 32767)
    (hvoltage : 0 ≤ s.voltage ∧ s.voltage ≤ 65535)
    (hcapacity : 0 ≤ s.capacity ∧ s.capacity ≤ 65535)
    (htemp : 0 ≤ s.temp ∧ s.temp ≤ 127)
    (hstate : 0 ≤ s.chargingState ∧ s.chargingState ≤ 255)
    (hsources : 0 ≤ s.chargingSourcesAvailable ∧ s.chargingSourcesAvailable ≤ 255)
    (hmode : 0 ≤ s.OIMode ∧ s.OIMode ≤ 255)
    (hstasis : 0 ≤ s.stasis ∧ s.stasis ≤ 255)
    (hleft : -32768 ≤ s.leftencodercounts ∧ s.leftencodercounts ≤ 32767)
    (hright : -32768 ≤ s.rightencodercounts ∧ s.rightencodercounts ≤ 32767) :
    (decodeFrame s now).ok = true ∧
    (decodeFrame s now).index = (encodeFrame s).length ∧
    (decodeFrame s now).state =
      { s with cleaning := false, docked := false, returning := false,
               timestamp := now, sent := false } := by
  simp [decodeFrame, parseRoombaStateFromStreamPacket, scanLoop, Packet.ofList, encodeFrame,
    bigEndian16, wireByte, RoombaState.zero, byteAt, wordAt]
  have hmax : ∀ a : Int, a ⊔ 0 = if a ≤ 0 then 0 else a := by
    intro a
    split
    · simp [*]
    · simp; omega
  simp only [hmax, toInt16, toUInt16]
  refine ⟨?_, ?_, ?_, ?_, ?_, ?_, ?_, ?_, ?_, ?_, ?_, ?_⟩ <;> omega

/-! ## Telemetry decoder: theorems -/

/-- C1 (evaluation at the failing input): on the one-byte buffer `[19]` with
`length = 1` the decoder returns true although the scan index ends at 3, not at 1,
and the two field bytes it read lie at the offsets 1 and 2, beyond `length`. -/
theorem parse_truncated_distance_overruns :
    (parseRoombaStateFromStreamPacket (Packet.ofList [19]) 1 0 RoombaState.zero).ok = true ∧
    (parseRoombaStateFromStreamPacket (Packet.ofList [19]) 1 0 RoombaState.zero).index = 3 ∧
    (parseRoombaStateFromStreamPacket (Packet.ofList [19]) 1 0 RoombaState.zero).reads
      = [0, 1, 2] := by
  simp [parseRoombaStateFromStreamPacket, scanLoop, Packet.ofList]

/-- C2: when the decode of the received buffer fails, `readSensorPacket` leaves the
global `roombaState` equal to its value before the call (the whole world, in fact). -/
theorem readSensorPacket_decode_failure_keeps_state (w : World) (received : Bool)
    (packet : Packet) (packetLength : Nat) (now : Int)
    (hfail : (snapshot packet packetLength now).ok = false) :
    (readSensorPacket w received packet packetLength now).roombaState = w.roombaState ∧
    readSensorPacket w received packet packetLength now = w := by
  unfold readSensorPacket
  simp [hfail]

/-- C2, witness: a buffer whose byte at position 0 is the unknown packet id 200
fails to decode, and a state with telemetry and flags set survives unchanged. -/
theorem readSensorPacket_decode_failure_keeps_state_witness :
    (snapshot (Packet.ofList [200, 24, 30]) 3 5000).ok = false ∧
    (readSensorPacket (World.init sampleState) true (Packet.ofList [200, 24, 30]) 3
      5000).roombaState = sampleState :=
  ⟨by simp [snapshot, parseRoombaStateFromStreamPacket, scanLoop, Packet.ofList],
   (readSensorPacket_decode_failure_keeps_state (World.init sampleState) true
      (Packet.ofList [200, 24, 30]) 3 5000
      (by simp [snapshot, parseRoombaStateFromStreamPacket, scanLoop, Packet.ofList])).1⟩

/-- C3 (evaluation at the failing input): the synthetic frame of a state whose
temperature is -1 degree decodes successfully, but the decoded temperature is 255:
the byte is stored without sign extension. -/
theorem roundtrip_negative_temperature_lost :
    (decodeFrame { RoombaState.zero with temp := -1 } 0).ok = true ∧
    (decodeFrame { RoombaState.zero with temp := -1 } 0).state.temp = 255 ∧
    (decodeFrame { RoombaState.zero with temp := -1 } 0).state.temp
      ≠ ({ RoombaState.zero with temp := -1 } : RoombaState).temp := by
  simp [decodeFrame, parseRoombaStateFromStreamPacket, scanLoop, Packet.ofList, encodeFrame,
    bigEndian16, wireByte, RoombaState.zero, byteAt, wordAt, toInt16, toUInt16]

/-- C4, counterexample: the claim as stated is false. The byte 13 (and likewise 7)
is none of the ids the claim lists, the scan reaches it at position 0 of the
buffer `[13, 0]`, and the decode returns true. -/
theorem unlisted_id_not_always_failure :
    ¬ ∀ (packet : Packet) (length now : Int) (state : RoombaState) (p : Nat),
        p ∈ (parseRoombaStateFromStreamPacket packet length now state).ids →
        packet p % 256 ∉ specIds →
        (parseRoombaStateFromStreamPacket packet length now state).ok = false := by
  intro h
  have h13 := h (Packet.ofList [13, 0]) 2 0 RoombaState.zero 0
    (by simp [parseRoombaStateFromStreamPacket, scanLoop, Packet.ofList])
    (by simp [Packet.ofList, specIds])
  simp [parseRoombaStateFromStreamPacket, scanLoop, Packet.ofList] at h13

/-- C4, amended: if the scan reaches a position whose byte is none of the twelve
table ids, none of the legacy bulk markers 0 and 1, and none of the three
skip-one-byte markers 7, 13 and 128, then the decode returns false. -/
theorem unhandled_id_is_failure (packet : Packet) (length now : Int) (state : RoombaState)
    (p : Nat)
    (hreach : p ∈ (parseRoombaStateFromStreamPacket packet length now state).ids)
    (hbad : packet p % 256 ∉
      [19, 21, 22, 23, 24, 25, 26, 34, 35, 43, 44, 58, 0, 1, 7, 13, 128]) :
    (parseRoombaStateFromStreamPacket packet length now state).ok = false := by
  unfold parseRoombaStateFromStreamPacket at hreach ⊢
  refine scanLoop_unhandled packet length 0 _ [] [] p (by simp) hreach ?_
  intro hmem
  apply hbad
  simp only [handledIds, List.mem_cons, List.mem_singleton] at hmem
  simp only [List.mem_cons, List.mem_singleton]
  tauto

/-- C4, witness: in `[24, 30, 200, 0]` the scan reaches the unknown id 200 at
position 2 and the decode fails. -/
theorem unhandled_id_is_failure_witness :
    2 ∈ (parseRoombaStateFromStreamPacket (Packet.ofList [24, 30, 200, 0]) 4 0
      RoombaState.zero).ids ∧
    (parseRoombaStateFromStreamPacket (Packet.ofList [24, 30, 200, 0]) 4 0
      RoombaState.zero).ok = false :=
  ⟨by simp [parseRoombaStateFromStreamPacket, scanLoop, Packet.ofList],
   unhandled_id_is_failure (Packet.ofList [24, 30, 200, 0]) 4 0 RoombaState.zero 2
    (by simp [parseRoombaStateFromStreamPacket, scanLoop, Packet.ofList])
    (by simp [Packet.ofList])⟩

/-! ## State reconciliation: theorems -/

/-- C5: validity gate. When the received buffer decodes successfully into a snapshot
whose temperature is 0, which is the case in particular for a frame without a
temperature packet and for the empty buffer, `readSensorPacket` leaves
`roombaState` and the distance accumulator `distanceSum` unchanged. -/
theorem readSensorPacket_zero_temperature_rejected (w : World) (received : Bool)
    (packet : Packet) (packetLength : Nat) (now : Int)
    (hok : (snapshot packet packetLength now).ok = true)
    (hzero : (snapshot packet packetLength now).state.temp = 0 ∨
      (∀ p ∈ (snapshot packet packetLength now).ids, packet p % 256 ≠ 24) ∨
      packetLength % 256 = 0) :
    (readSensorPacket w received packet packetLength now).roombaState = w.roombaState ∧
    (readSensorPacket w received packet packetLength now).distanceSum = w.distanceSum := by
  have ht : (snapshot packet packetLength now).state.temp = 0 := by
    rcases hzero with h | h | h
    · exact h
    · exact snapshot_without_temperature packet packetLength now h
    · exact (snapshot_empty packet packetLength now h).2
  unfold readSensorPacket
  simp [hok, ht]

/-- C5, witness: a frame that carries a charging state, a voltage and no
temperature decodes successfully and is rejected; state and accumulator stay. -/
theorem readSensorPacket_zero_temperature_rejected_witness :
    (snapshot (Packet.ofList [21, 2, 22, 62, 128]) 5 5000).ok = true ∧
    (∀ p ∈ (snapshot (Packet.ofList [21, 2, 22, 62, 128]) 5 5000).ids,
      Packet.ofList [21, 2, 22, 62, 128] p % 256 ≠ 24) ∧
    (readSensorPacket (World.init sampleState) true (Packet.ofList [21, 2, 22, 62, 128]) 5
      5000).roombaState = sampleState ∧
    (readSensorPacket (World.init sampleState) true (Packet.ofList [21, 2, 22, 62, 128]) 5
      5000).distanceSum = 0 :=
  ⟨by simp [snapshot, parseRoombaStateFromStreamPacket, scanLoop, Packet.ofList],
   by simp [snapshot, parseRoombaStateFromStreamPacket, scanLoop, Packet.ofList],
   readSensorPacket_zero_temperature_rejected (World.init sampleState) true
    (Packet.ofList [21, 2, 22, 62, 128]) 5 5000
    (by simp [snapshot, parseRoombaStateFromStreamPacket, scanLoop, Packet.ofList])
    (Or.inr (Or.inl
      (by simp [snapshot, parseRoombaStateFromStreamPacket, scanLoop, Packet.ofList])))⟩

/-- C6, counterexample: the claim as stated is false. With `returning` set before,
the accepted frame `[24, 20]` (temperature 20, current 0) clears `returning`. -/
theorem returning_not_always_preserved :
    ¬ ∀ (w : World) (packet : Packet) (packetLength : Nat) (now : Int),
        (snapshot packet packetLength now).ok = true →
        (snapshot packet packetLength now).state.temp ≠ 0 →
        (readSensorPacket w true packet packetLength now).roombaState.returning
          = w.roombaState.returning := by
  intro h
  have h0 := h (World.init sampleState) (Packet.ofList [24, 20]) 2 5000
    (by simp [snapshot, parseRoombaStateFromStreamPacket, scanLoop, Packet.ofList])
    (by simp [snapshot, parseRoombaStateFromStreamPacket, scanLoop, Packet.ofList,
          RoombaState.zero, byteAt, toInt16])
  simp [readSensorPacket, deriveFlags, snapshot, parseRoombaStateFromStreamPacket, scanLoop,
    Packet.ofList, RoombaState.zero, byteAt, toInt16, World.init, sampleState] at h0

/-- C6, amended: after an accepted telemetry update, `returning` is false when the
decoded current is above -50 mA, and otherwise equals its value before the update. -/
theorem readSensorPacket_returning (w : World) (packet : Packet) (packetLength : Nat)
    (now : Int)
    (hok : (snapshot packet packetLength now).ok = true)
    (htemp : (snapshot packet packetLength now).state.temp ≠ 0) :
    (readSensorPacket w true packet packetLength now).roombaState.returning =
      (if (snapshot packet packetLength now).state.current > -50 then false
       else w.roombaState.returning) := by
  unfold readSensorPacket deriveFlags
  simp only [hok, htemp, if_true, Bool.true_and, bne_iff_ne, ne_eq, not_false_eq_true,
    decide_True]
  by_cases h1 : (snapshot packet packetLength now).state.current < -400
  · have h2 : ¬ (snapshot packet packetLength now).state.current > -50 := by omega
    cases hr : w.roombaState.returning <;> simp [h1, h2, hr]
  · by_cases h2 : (snapshot packet packetLength now).state.current > -50 <;>
      simp [h1, h2]

/-- C6, witness: with `returning` set before, the accepted frame
`[23, 255, 156, 24, 20]` (current -100 mA) leaves `returning` set. -/
theorem readSensorPacket_returning_witness :
    (snapshot (Packet.ofList [23, 255, 156, 24, 20]) 5 5000).ok = true ∧
    (snapshot (Packet.ofList [23, 255, 156, 24, 20]) 5 5000).state.temp ≠ 0 ∧
    (snapshot (Packet.ofList [23, 255, 156, 24, 20]) 5 5000).state.current = -100 ∧
    (readSensorPacket (World.init sampleState) true (Packet.ofList [23, 255, 156, 24, 20]) 5
      5000).roombaState.returning = true := by
  have h := readSensorPacket_returning (World.init sampleState)
    (Packet.ofList [23, 255, 156, 24, 20]) 5 5000
    (by simp [snapshot, parseRoombaStateFromStreamPacket, scanLoop, Packet.ofList])
    (by simp [snapshot, parseRoombaStateFromStreamPacket, scanLoop, Packet.ofList,
          RoombaState.zero, byteAt, toInt16])
  have hc : (snapshot (Packet.ofList [23, 255, 156, 24, 20]) 5 5000).state.current = -100 := by
    simp [snapshot, parseRoombaStateFromStreamPacket, scanLoop, Packet.ofList,
      RoombaState.zero, byteAt, wordAt, toInt16]
  refine ⟨by simp [snapshot, parseRoombaStateFromStreamPacket, scanLoop, Packet.ofList],
    by simp [snapshot, parseRoombaStateFromStreamPacket, scanLoop, Packet.ofList,
          RoombaState.zero, byteAt, toInt16], hc, ?_⟩
  rw [h, hc]
  simp [World.init, sampleState]

/-- C7: after an accepted telemetry update whose decoded current is below -400 mA:
if `returning` was false before, then `cleaning` is true and `docked` is false;
if `returning` was true before, then `cleaning` and `docked` are false and
`returning` is still true. -/
theorem readSensorPacket_high_discharge (w : World) (packet : Packet) (packetLength : Nat)
    (now : Int)
    (hok : (snapshot packet packetLength now).ok = true)
    (htemp : (snapshot packet packetLength now).state.temp ≠ 0)
    (hcur : (snapshot packet packetLength now).state.current < -400) :
    (w.roombaState.returning = false →
      (readSensorPacket w true packet packetLength now).roombaState.cleaning = true ∧
      (readSensorPacket w true packet packetLength now).roombaState.docked = false) ∧
    (w.roombaState.returning = true →
      (readSensorPacket w true packet packetLength now).roombaState.cleaning = false ∧
      (readSensorPacket w true packet packetLength now).roombaState.docked = false ∧
      (readSensorPacket w true packet packetLength now).roombaState.returning = true) := by
  have h2 : ¬ (snapshot packet packetLength now).state.current > -50 := by omega
  unfold readSensorPacket deriveFlags
  constructor <;> intro hr <;> simp [hok, htemp, hcur, h2, hr]

/-- C7, witness: the accepted frame `[23, 254, 12, 24, 20]` carries a current of
-500 mA; arriving while `returning` is set, it leaves `cleaning` and `docked`
false and `returning` true. -/
theorem readSensorPacket_high_discharge_witness :
    (snapshot (Packet.ofList [23, 254, 12, 24, 20]) 5 5000).state.current = -500 ∧
    (readSensorPacket (World.init sampleState) true (Packet.ofList [23, 254, 12, 24, 20]) 5
      5000).roombaState.cleaning = false ∧
    (readSensorPacket (World.init sampleState) true (Packet.ofList [23, 254, 12, 24, 20]) 5
      5000).roombaState.docked = false ∧
    (readSensorPacket (World.init sampleState) true (Packet.ofList [23, 254, 12, 24, 20]) 5
      5000).roombaState.returning = true :=
  ⟨by simp [snapshot, parseRoombaStateFromStreamPacket, scanLoop, Packet.ofList,
        RoombaState.zero, byteAt, wordAt, toInt16],
   (readSensorPacket_high_discharge (World.init sampleState)
      (Packet.ofList [23, 254, 12, 24, 20]) 5 5000
      (by simp [snapshot, parseRoombaStateFromStreamPacket, scanLoop, Packet.ofList])
      (by simp [snapshot, parseRoombaStateFromStreamPacket, scanLoop, Packet.ofList,
            RoombaState.zero, byteAt, toInt16])
      (by simp [snapshot, parseRoombaStateFromStreamPacket, scanLoop, Packet.ofList,
            RoombaState.zero, byteAt, wordAt, toInt16])).2 rfl⟩

/-- C8: after an accepted telemetry update whose decoded current is above -50 mA,
whatever the flags were before, `docked` is true and `cleaning` and `returning`
are false. -/
theorem readSensorPacket_low_current_docked (w : World) (packet : Packet)
    (packetLength : Nat) (now : Int)
    (hok : (snapshot packet packetLength now).ok = true)
    (htemp : (snapshot packet packetLength now).state.temp ≠ 0)
    (hcur : (snapshot packet packetLength now).state.current > -50) :
    (readSensorPacket w true packet packetLength now).roombaState.docked = true ∧
    (readSensorPacket w true packet packetLength now).roombaState.cleaning = false ∧
    (readSensorPacket w true packet packetLength now).roombaState.returning = false := by
  have h1 : ¬ (snapshot packet packetLength now).state.current < -400 := by omega
  unfold readSensorPacket deriveFlags
  simp [hok, htemp, hcur, h1]

/-- C8, witness: the accepted frame `[23, 0, 0, 24, 20]` carries a current of 0 mA;
arriving while `returning` is set, it gives docked, not cleaning, not returning. -/
theorem readSensorPacket_low_current_docked_witness :
    (snapshot (Packet.ofList [23, 0, 0, 24, 20]) 5 5000).state.current = 0 ∧
    (readSensorPacket (World.init sampleState) true (Packet.ofList [23, 0, 0, 24, 20]) 5
      5000).roombaState.docked = true ∧
    (readSensorPacket (World.init sampleState) true (Packet.ofList [23, 0, 0, 24, 20]) 5
      5000).roombaState.cleaning = false ∧
    (readSensorPacket (World.init sampleState) true (Packet.ofList [23, 0, 0, 24, 20]) 5
      5000).roombaState.returning = false :=
  ⟨by simp [snapshot, parseRoombaStateFromStreamPacket, scanLoop, Packet.ofList,
        RoombaState.zero, byteAt, wordAt, toInt16],
   readSensorPacket_low_current_docked (World.init sampleState)
      (Packet.ofList [23, 0, 0, 24, 20]) 5 5000
      (by simp [snapshot, parseRoombaStateFromStreamPacket, scanLoop, Packet.ofList])
      (by simp [snapshot, parseRoombaStateFromStreamPacket, scanLoop, Packet.ofList,
            RoombaState.zero, byteAt, toInt16])
      (by simp [snapshot, parseRoombaStateFromStreamPacket, scanLoop, Packet.ofList,
            RoombaState.zero, byteAt, wordAt, toInt16])⟩

/-! ## Command dispatcher: theorems -/

theorem wakeup_roombaState (w : World) : (wakeup w).roombaState = w.roombaState := by
  unfold wakeup serialWrite
  split
  · rfl
  · split <;> rfl

theorem wakeup_serial (w : World) :
    (wakeup w).serial =
      w.serial ++ (if w.roombaState.OIMode = 0 ∨ w.roombaState.OIMode = 1 then [128] else []) := by
  have h128 : (toByte 128).toNat = 128 := by decide
  unfold wakeup serialWrite
  by_cases h0 : w.roombaState.OIMode = 0
  · simp [h0, h128]
  · by_cases h1 : w.roombaState.OIMode = 1 <;> simp [h0, h1, h128]

theorem substring_packet_iff (cmd : String) :
    substring cmd 0 6 = "packet" ↔ cmd.data.take 6 = "packet".data := by
  unfold substring
  simp [String.ext_iff]

/-- C9, counterexample: the claim as stated is false. The string `packetxyz` is none
of the eleven named commands and is not `packet` followed by a blank, yet
`performCommand` returns true and writes the byte 0 after the wake. -/
theorem unlisted_command_not_always_rejected :
    ¬ ∀ (lib : RoombaLib) (w : World) (cmd : String),
        cmd ∉ namedCommands → ¬ isPacketCommand cmd →
        (performCommand lib w cmd).2 = false ∧
        (performCommand lib w cmd).1.roombaState = w.roombaState ∧
        (performCommand lib w cmd).1.serial = (wakeup w).serial := by
  intro h
  have h0 := h RoombaLib.oi (World.init sampleState) "packetxyz" (by decide) (by decide)
  exact absurd h0.1 (by decide)

/-- C9, amended: for every command string that is none of the eleven named commands
and does not begin with the six characters `packet`, `performCommand` returns
false, leaves `roombaState` unchanged and writes no byte other than those of the
initial wake. -/
theorem performCommand_unrecognized (lib : RoombaLib) (w : World) (cmd : String)
    (hname : cmd ∉ namedCommands)
    (hpacket : cmd.data.take 6 ≠ "packet".data) :
    (performCommand lib w cmd).2 = false ∧
    (performCommand lib w cmd).1.roombaState = w.roombaState ∧
    (performCommand lib w cmd).1.serial = (wakeup w).serial := by
  have hsub : ¬ substring cmd 0 6 = "packet" := fun h => hpacket ((substring_packet_iff cmd).1 h)
  simp only [namedCommands, List.mem_cons, List.mem_singleton, List.not_mem_nil, or_false,
    not_or] at hname
  obtain ⟨h1, h2, h3, h4, h5, h6, h7, h8, h9, h10, h11⟩ := hname
  unfold performCommand
  simp [h1, h2, h3, h4, h5, h6, h7, h8, h9, h10, h11, hsub, wakeup_roombaState]

/-- C9, witness: the debug command `quit` is not in the table; it is rejected, the
state stays, and the only byte written is the 128 of the wake (mode passive). -/
theorem performCommand_unrecognized_witness :
    (performCommand RoombaLib.oi (World.init sampleState) "quit").2 = false ∧
    (performCommand RoombaLib.oi (World.init sampleState) "quit").1.roombaState
      = sampleState ∧
    (performCommand RoombaLib.oi (World.init sampleState) "quit").1.serial
      = (wakeup (World.init sampleState)).serial ∧
    (wakeup (World.init sampleState)).serial = [128] :=
  ⟨(performCommand_unrecognized RoombaLib.oi (World.init sampleState) "quit"
      (by decide) (by decide)).1,
   (performCommand_unrecognized RoombaLib.oi (World.init sampleState) "quit"
      (by decide) (by decide)).2.1,
   (performCommand_unrecognized RoombaLib.oi (World.init sampleState) "quit"
      (by decide) (by decide)).2.2,
   by decide⟩

/-- C10, counterexample: the claim as stated is false. With `cleaning` set and the
operating mode Off, `locate` leaves the state alone but the wake that precedes
every command writes the start opcode 128 to the serial link. -/
theorem locate_while_cleaning_still_wakes :
    ¬ ∀ (lib : RoombaLib) (w : World), w.roombaState.cleaning = true →
        (performCommand lib w "locate").1.roombaState = w.roombaState ∧
        (performCommand lib w "locate").1.serial = w.serial := by
  intro h
  have h0 := h RoombaLib.oi cleaningWorld (by decide)
  exact absurd h0.2 (by decide)

/-- C10, amended: for every state with `cleaning` set, `locate` is refused:
`roombaState` is unchanged and no byte is written to the serial link other than
that of the initial wake (the start opcode 128 when the operating mode is 0 or 1,
nothing otherwise). -/
theorem performCommand_locate_refused (lib : RoombaLib) (w : World)
    (hclean : w.roombaState.cleaning = true) :
    (performCommand lib w "locate").1.roombaState = w.roombaState ∧
    (performCommand lib w "locate").1.serial =
      w.serial ++ (if w.roombaState.OIMode = 0 ∨ w.roombaState.OIMode = 1 then [128] else []) := by
  unfold performCommand
  simp [wakeup_roombaState, hclean, wakeup_serial]

/-- C10, witness: in the sample cleaning world (mode Off) `locate` changes no state
and the serial link receives the 128 of the wake alone; none of the song bytes. -/
theorem performCommand_locate_refused_witness :
    cleaningWorld.roombaState.cleaning = true ∧
    (performCommand RoombaLib.oi cleaningWorld "locate").1.roombaState
      = cleaningWorld.roombaState ∧
    (performCommand RoombaLib.oi cleaningWorld "locate").1.serial = [128] :=
  ⟨by decide,
   (performCommand_locate_refused RoombaLib.oi cleaningWorld (by decide)).1,
   by
    have h := (performCommand_locate_refused RoombaLib.oi cleaningWorld (by decide)).2
    rw [h]
    decide⟩

/-- C11: with `cleaning` and `returning` both false, `stop` returns true and
leaves `roombaState` unchanged. -/
theorem performCommand_stop_idle (lib : RoombaLib) (w : World)
    (hclean : w.roombaState.cleaning = false) (hret : w.roombaState.returning = false) :
    (performCommand lib w "stop").2 = true ∧
    (performCommand lib w "stop").1.roombaState = w.roombaState := by
  unfold performCommand
  simp [wakeup_roombaState, hclean, hret]

/-- C11, witness: in the sample idle world `stop` returns true, the state stays,
and nothing at all reaches the serial link (mode Safe, so the wake is silent). -/
theorem performCommand_stop_idle_witness :
    (performCommand RoombaLib.oi idleWorld "stop").2 = true ∧
    (performCommand RoombaLib.oi idleWorld "stop").1.roombaState = idleWorld.roombaState ∧
    (performCommand RoombaLib.oi idleWorld "stop").1.serial = [] :=
  ⟨(performCommand_stop_idle RoombaLib.oi idleWorld (by decide) (by decide)).1,
   (performCommand_stop_idle RoombaLib.oi idleWorld (by decide) (by decide)).2,
   by decide⟩

/-- C12, counterexample: the claim as stated is false. In the sample cleaning world
`stop` writes, after the wake, the opcode of `roomba.cover()`, 135: it is not the
opcode 173 of `quit`, and it is the very opcode that `clean` issues. -/
theorem stop_does_not_write_quit_opcode :
    ¬ ∀ (lib : RoombaLib) (w : World),
        w.roombaState.cleaning = true ∨ w.roombaState.returning = true →
        (performCommand lib w "stop").1.roombaState.cleaning = false ∧
        (performCommand lib w "stop").1.roombaState.returning = false ∧
        (performCommand lib w "stop").1.serial = (wakeup w).serial ++ [quitOpcode] ∧
        quitOpcode ≠ wireOpcode lib.cover := by
  intro h
  have h0 := h RoombaLib.oi cleaningWorld (Or.inl (by decide))
  exact absurd h0.2.2.1 (by decide)

/-- C12, amended: when `cleaning` or `returning` is set, `stop` clears both flags
and, after the wake, writes exactly one opcode: that of `roomba.cover()`, the same
opcode that `clean` issues to start cleaning. -/
theorem performCommand_stop_active (lib : RoombaLib) (w : World)
    (hactive : w.roombaState.cleaning = true ∨ w.roombaState.returning = true) :
    (performCommand lib w "stop").1.roombaState.cleaning = false ∧
    (performCommand lib w "stop").1.roombaState.returning = false ∧
    (performCommand lib w "stop").1.serial = (wakeup w).serial ++ [wireOpcode lib.cover] ∧
    (∀ v : World, v.roombaState.cleaning = false →
      (performCommand lib v "clean").1.serial = (wakeup v).serial ++ [wireOpcode lib.cover]) := by
  refine ⟨?_, ?_, ?_, ?_⟩
  · unfold performCommand
    rcases hactive with h | h <;> simp [wakeup_roombaState, h, serialWrite]
  · unfold performCommand
    rcases hactive with h | h <;> simp [wakeup_roombaState, h, serialWrite]
  · unfold performCommand
    rcases hactive with h | h <;> simp [wakeup_roombaState, h, serialWrite, wireOpcode]
  · intro v hv
    unfold performCommand
    simp [wakeup_roombaState, hv, serialWrite, wireOpcode]

/-- C12, witness: in the sample cleaning world (mode Off) `stop` clears the flags
and the link receives the 128 of the wake followed by the single opcode 135. -/
theorem performCommand_stop_active_witness :
    (performCommand RoombaLib.oi cleaningWorld "stop").1.roombaState.cleaning = false ∧
    (performCommand RoombaLib.oi cleaningWorld "stop").1.roombaState.returning = false ∧
    (performCommand RoombaLib.oi cleaningWorld "stop").1.serial = [128, 135] := by
  have h := performCommand_stop_active RoombaLib.oi cleaningWorld (Or.inl (by decide))
  refine ⟨h.1, h.2.1, ?_⟩
  rw [h.2.2.1]
  decide

/-- C15: `toggle` and `start_pause` have the same effect. `cleaning` becomes the
negation of its previous value, `returning` is false whenever the new `cleaning`
is true (it is false in either case), and the opcodes written after the wake are
power-off then start-cleaning when `cleaning` was true before, and start-cleaning
twice when it was false. -/
theorem performCommand_toggle (lib : RoombaLib) (w : World) :
    performCommand lib w "toggle" = performCommand lib w "start_pause" ∧
    (performCommand lib w "toggle").2 = true ∧
    (performCommand lib w "toggle").1.roombaState.cleaning = !w.roombaState.cleaning ∧
    ((performCommand lib w "toggle").1.roombaState.cleaning = true →
      (performCommand lib w "toggle").1.roombaState.returning = false) ∧
    (performCommand lib w "toggle").1.roombaState.returning = false ∧
    (performCommand lib w "toggle").1.serial = (wakeup w).serial ++
      (if w.roombaState.cleaning then [wireOpcode lib.power, wireOpcode lib.cover]
       else [wireOpcode lib.cover, wireOpcode lib.cover]) := by
  unfold performCommand
  cases hc : w.roombaState.cleaning <;>
    simp [wakeup_roombaState, hc, serialWrite, wireOpcode]

/-- C15, witness: in the sample cleaning world `toggle` ends cleaning and the link
receives the wake's 128, then power-off 133 and start-cleaning 135. -/
theorem performCommand_toggle_witness :
    (performCommand RoombaLib.oi cleaningWorld "toggle").1.roombaState.cleaning = false ∧
    (performCommand RoombaLib.oi cleaningWorld "toggle").1.serial = [128, 133, 135] ∧
    (performCommand RoombaLib.oi idleWorld "start_pause").1.roombaState.cleaning = true ∧
    (performCommand RoombaLib.oi idleWorld "start_pause").1.serial = [135, 135] := by
  have h := performCommand_toggle RoombaLib.oi cleaningWorld
  refine ⟨?_, ?_, ?_, ?_⟩
  · rw [h.2.2.1]; decide
  · rw [h.2.2.2.2.2]; decide
  · decide
  · decide

/-- C16: after `clean`, `cleaning` is true and `returning` is false; the
start-cleaning opcode is written, once and after the wake, exactly when `cleaning`
was false before, and when `cleaning` was already true nothing follows the wake. -/
theorem performCommand_clean (lib : RoombaLib) (w : World) :
    (performCommand lib w "clean").1.roombaState.cleaning = true ∧
    (performCommand lib w "clean").1.roombaState.returning = false ∧
    (performCommand lib w "clean").1.serial = (wakeup w).serial ++
      (if w.roombaState.cleaning then [] else [wireOpcode lib.cover]) := by
  unfold performCommand
  cases hc : w.roombaState.cleaning <;>
    simp [wakeup_roombaState, hc, serialWrite, wireOpcode]

/-- C17: the base wake sequence writes exactly one byte, the start opcode 128, when
the operating mode is Off (0) or Passive (1), writes no byte when the mode is
Safe (2) or Full (3), and leaves `roombaState` unchanged in every case. -/
theorem wakeup_effect (w : World) :
    (w.roombaState.OIMode = 0 ∨ w.roombaState.OIMode = 1 →
      (wakeup w).serial = w.serial ++ [128]) ∧
    (w.roombaState.OIMode = 2 ∨ w.roombaState.OIMode = 3 →
      (wakeup w).serial = w.serial) ∧
    (wakeup w).roombaState = w.roombaState ∧
    (wakeup w).roombaState.OIMode = w.roombaState.OIMode := by
  refine ⟨?_, ?_, wakeup_roombaState w, by rw [wakeup_roombaState]⟩
  · intro h
    rw [wakeup_serial]
    simp [h]
  · intro h
    rw [wakeup_serial]
    rcases h with h | h <;> simp [h]

/-- C17, witness: the sample state is in Passive mode and the wake writes 128; the
idle world is in Safe mode and the wake writes nothing. -/
theorem wakeup_effect_witness :
    (wakeup (World.init sampleState)).serial = [128] ∧
    (wakeup idleWorld).serial = [] ∧
    (wakeup idleWorld).roombaState = idleWorld.roombaState :=
  ⟨(wakeup_effect (World.init sampleState)).1 (Or.inr (by decide)),
   (wakeup_effect idleWorld).2.1 (Or.inl (by decide)),
   (wakeup_effect idleWorld).2.2.1⟩

/-! ## Status publication: theorems -/

/-- C19, counterexample: the claim as stated is false. A state whose `docked` flag
is set while the charging sources show no home base (value 0, not 2) is published
as `idle`, where the claim says `docked`. -/
theorem status_state_ignores_docked_flag :
    ¬ ∀ (chargeAvailableDock : Int) (rs : RoombaState),
        sendStatusHAState chargeAvailableDock rs = specStatusState rs := by
  intro h
  have h0 := h 2 { RoombaState.zero with docked := true }
  exact absurd h0 (by decide)

/-- C19, amended: the `state` value chosen by `sendStatusHA` is `returning` if the
returning flag is set; otherwise `cleaning` if the cleaning flag is set; otherwise
`docked` if the charging-sources-available field equals the library constant
`ChargeAvailableDock`; otherwise `idle`. -/
theorem sendStatusHAState_priority (chargeAvailableDock : Int) (rs : RoombaState) :
    (rs.returning = true → sendStatusHAState chargeAvailableDock rs = "returning") ∧
    (rs.returning = false → rs.cleaning = true →
      sendStatusHAState chargeAvailableDock rs = "cleaning") ∧
    (rs.returning = false → rs.cleaning = false →
      rs.chargingSourcesAvailable = chargeAvailableDock →
      sendStatusHAState chargeAvailableDock rs = "docked") ∧
    (rs.returning = false → rs.cleaning = false →
      rs.chargingSourcesAvailable ≠ chargeAvailableDock →
      sendStatusHAState chargeAvailableDock rs = "idle") := by
  unfold sendStatusHAState
  refine ⟨?_, ?_, ?_, ?_⟩
  · intro h; simp [h]
  · intro h1 h2; simp [h1, h2]
  · intro h1 h2 h3; simp [h1, h2, h3]
  · intro h1 h2 h3; simp [h1, h2, h3]

/-- C19, witness: the sample state has `returning` set and is published as
`returning`; the idle world, whose `docked` flag is set but whose charging sources
are 0, is published as `idle`. -/
theorem sendStatusHAState_priority_witness :
    sendStatusHAState 2 sampleState = "returning" ∧
    idleWorld.roombaState.docked = true ∧
    sendStatusHAState 2 idleWorld.roombaState = "idle" :=
  ⟨(sendStatusHAState_priority 2 sampleState).1 (by decide),
   by decide,
   (sendStatusHAState_priority 2 idleWorld.roombaState).2.2.2 (by decide) (by decide)
    (by decide)⟩

/-! ## Telemetry decoder: what a failed decode leaves in the target -/

theorem scanLoop_bookkeeping (packet : Packet) (length : Int) (i : Nat) (state : RoombaState)
    (ids reads : List Nat) :
    (scanLoop packet length i state ids reads).state.cleaning = state.cleaning ∧
    (scanLoop packet length i state ids reads).state.docked = state.docked ∧
    (scanLoop packet length i state ids reads).state.returning = state.returning ∧
    (scanLoop packet length i state ids reads).state.sent = state.sent ∧
    (scanLoop packet length i state ids reads).state.timestamp = state.timestamp := by
  induction i, state, ids, reads using scanLoop.induct packet length
  case case18 =>
    rw [scanLoop]
    simp_all
  case case19 i state ids reads h =>
    rw [scanLoop]
    simp [h]
  all_goals
    rename_i i state ids reads hlt hm ih
    rw [scanLoop]
    simp only [hlt, hm, dite_true]
    exact ih

/-- C20, counterexample: the claim as stated is false. On `[24, 30, 200]` the decode
returns false, yet the target state has received the time stamp and the
temperature decoded before the unknown id 200. -/
theorem failed_decode_mutates_target :
    ¬ ∀ (packet : Packet) (length now : Int) (state : RoombaState),
        (parseRoombaStateFromStreamPacket packet length now state).ok = false →
        (parseRoombaStateFromStreamPacket packet length now state).state = state := by
  intro h
  have h0 := h (Packet.ofList [24, 30, 200]) 3 5000 RoombaState.zero
    (by simp [parseRoombaStateFromStreamPacket, scanLoop, Packet.ofList])
  have ht := congrArg RoombaState.temp h0
  simp [parseRoombaStateFromStreamPacket, scanLoop, Packet.ofList, RoombaState.zero, byteAt,
    toInt16] at ht

/-- C20, amended: if the decoder returns false, the derived flags `cleaning`,
`docked` and `returning` and the flag `sent` of the target state are equal to their
values before the call and its time stamp is the value of `millis()`; when the
offending packet id is the first byte of the buffer, every other field is
unchanged as well. The raw fields decoded before a later offending id are not
covered. -/
theorem parse_failure_keeps_flags (packet : Packet) (length now : Int) (state : RoombaState)
    (hfail : (parseRoombaStateFromStreamPacket packet length now state).ok = false) :
    (parseRoombaStateFromStreamPacket packet length now state).state.cleaning
      = state.cleaning ∧
    (parseRoombaStateFromStreamPacket packet length now state).state.docked = state.docked ∧
    (parseRoombaStateFromStreamPacket packet length now state).state.returning
      = state.returning ∧
    (parseRoombaStateFromStreamPacket packet length now state).state.sent = state.sent ∧
    (parseRoombaStateFromStreamPacket packet length now state).state.timestamp = now ∧
    (packet 0 % 256 ∉ handledIds →
      (parseRoombaStateFromStreamPacket packet length now state).state
        = { state with timestamp := now }) := by
  refine ⟨?_, ?_, ?_, ?_, ?_, ?_⟩
  · exact (scanLoop_bookkeeping packet length 0 _ [] []).1
  · exact (scanLoop_bookkeeping packet length 0 _ [] []).2.1
  · exact (scanLoop_bookkeeping packet length 0 _ [] []).2.2.1
  · exact (scanLoop_bookkeeping packet length 0 _ [] []).2.2.2.1
  · exact (scanLoop_bookkeeping packet length 0 _ [] []).2.2.2.2
  · intro hbad
    unfold parseRoombaStateFromStreamPacket at hfail ⊢
    rw [scanLoop] at hfail ⊢
    simp only [Nat.cast_zero] at hfail ⊢
    by_cases hlen : (0 : Int) < length
    · simp only [hlen, dite_true] at hfail ⊢
      simp only [handledIds, List.mem_cons, List.mem_singleton, List.not_mem_nil, or_false,
        not_or] at hbad
      split <;> first | rfl | omega
    · simp [hlen] at hfail

/-- C20, witness: on `[24, 30, 200]` decoded into the sample state the decode fails,
`returning` and `sent` stay set, and the time stamp becomes 5000. -/
theorem parse_failure_keeps_flags_witness :
    (parseRoombaStateFromStreamPacket (Packet.ofList [24, 30, 200]) 3 5000 sampleState).ok
      = false ∧
    (parseRoombaStateFromStreamPacket (Packet.ofList [24, 30, 200]) 3 5000
      sampleState).state.returning = true ∧
    (parseRoombaStateFromStreamPacket (Packet.ofList [24, 30, 200]) 3 5000
      sampleState).state.sent = true ∧
    (parseRoombaStateFromStreamPacket (Packet.ofList [24, 30, 200]) 3 5000
      sampleState).state.timestamp = 5000 := by
  have hf : (parseRoombaStateFromStreamPacket (Packet.ofList [24, 30, 200]) 3 5000
      sampleState).ok = false := by
    simp [parseRoombaStateFromStreamPacket, scanLoop, Packet.ofList]
  have h := parse_failure_keeps_flags (Packet.ofList [24, 30, 200]) 3 5000 sampleState hf
  exact ⟨hf, h.2.2.1, h.2.2.2.1, h.2.2.2.2.1⟩

/-! ## Raw passthrough: theorems -/

theorem strtokAux_append_token (tok : List Char) (hnb : ∀ c ∈ tok, c ≠ blank)
    (s cur : List Char) :
    strtokAux (tok ++ s) cur = strtokAux s (cur ++ tok) := by
  induction tok generalizing cur with
  | nil => simp
  | cons c tok ih =>
    have hc : c ≠ blank := hnb c (by simp)
    have ht : ∀ d ∈ tok, d ≠ blank := fun d hd => hnb d (by simp [hd])
    simp only [List.cons_append, strtokAux, hc, if_false, List.append_eq]
    rw [ih ht]
    simp

theorem strtokAll_single (tok : List Char) (hne : tok ≠ []) (hnb : ∀ c ∈ tok, c ≠ blank) :
    strtokAll tok = [tok] := by
  have h := strtokAux_append_token tok hnb [] []
  simp only [List.append_nil, List.nil_append] at h
  unfold strtokAll
  rw [h]
  simp [strtokAux, hne]

theorem strtokAll_joinBlank (ts : List (List Char))
    (hts : ∀ t ∈ ts, t ≠ [] ∧ ∀ c ∈ t, c ≠ blank) :
    strtokAll (joinBlank ts) = ts := by
  induction ts with
  | nil => rfl
  | cons t ts ih =>
    have ht := hts t (by simp)
    cases ts with
    | nil => exact strtokAll_single t ht.1 ht.2
    | cons u us =>
      have hrest : ∀ v ∈ u :: us, v ≠ [] ∧ ∀ c ∈ v, c ≠ blank :=
        fun v hv => hts v (List.mem_cons_of_mem _ hv)
      have ih2 := ih hrest
      unfold strtokAll at ih2 ⊢
      simp only [joinBlank]
      rw [strtokAux_append_token t ht.2]
      simp only [List.nil_append, strtokAux, if_true, ht.1, if_false]
      rw [ih2]

theorem foldl_serialWrite (toks : List (List Char)) (w : World) :
    toks.foldl (fun w command => serialWrite w (atoi command)) w =
      { w with serial := w.serial ++ toks.map (fun t => (toByte (atoi t)).toNat) } := by
  induction toks generalizing w with
  | nil => simp
  | cons t toks ih =>
    simp only [List.foldl_cons, List.map_cons]
    rw [ih]
    simp [serialWrite]

theorem sendPacket_eq (w : World) (payload : List Char) :
    sendPacket w payload =
      { w with serial := w.serial ++
          (strtokAll payload).map (fun t => (toByte (atoi t)).toNat) } := by
  unfold sendPacket
  exact foldl_serialWrite _ w

set_option maxRecDepth 100000 in
theorem decimal_byte : ∀ b, b < 256 →
    decimal b ≠ [] ∧ (∀ c ∈ decimal b, c ≠ blank) ∧ (toByte (atoi (decimal b))).toNat = b := by
  decide

theorem performCommand_packet (lib : RoombaLib) (w : World) (rest : List Char) :
    performCommand lib w ⟨"packet ".data ++ rest⟩ = (sendPacket (wakeup w) rest, true) := by
  have hp : "packet ".data = [Char.ofNat 112, Char.ofNat 97, Char.ofNat 99, Char.ofNat 107,
      Char.ofNat 101, Char.ofNat 116, Char.ofNat 32] := by decide
  have hsub : substring ⟨"packet ".data ++ rest⟩ 0 6 = "packet" := by
    rw [substring_packet_iff]
    show List.take 6 ("packet ".data ++ rest) = "packet".data
    rw [hp]
    rfl
  have hfrom : ∀ buf, toCharArray (substringFrom ⟨"packet ".data ++ rest⟩ 7)
      ((⟨"packet ".data ++ rest⟩ : String).length - 6) buf = rest := by
    intro buf
    unfold toCharArray substringFrom substring
    simp [hp, String.length]
  have hne : ∀ s ∈ namedCommands, (⟨"packet ".data ++ rest⟩ : String) ≠ s := by
    intro s hs heq
    have hd := congrArg String.data heq
    simp only [namedCommands, List.mem_cons, List.mem_singleton, List.not_mem_nil,
      or_false] at hs
    have hh := congrArg List.head? hd
    rw [hp] at hh
    simp only [List.cons_append, List.head?_cons] at hh
    rcases hs with h | h | h | h | h | h | h | h | h | h | h <;>
      (subst h; revert hh; decide)
  simp only [namedCommands, List.mem_cons, List.mem_singleton, List.not_mem_nil, or_false,
    forall_eq_or_imp, forall_eq] at hne
  obtain ⟨h1, h2, h3, h4, h5, h6, h7, h8, h9, h10, h11⟩ := hne
  unfold performCommand
  simp only [h1, h2, h3, h4, h5, h6, h7, h8, h9, hsub, if_false, if_true, false_or, hfrom]

/-- C13: for every list of bytes `b1 .. bn` (each at most 255), the command
`packet` followed by a blank and the decimal renderings of the bytes separated by
single blanks returns true, leaves `roombaState` alone and writes, after the wake,
exactly the bytes `b1, .., bn` in that order. -/
theorem performCommand_packet_bytes (lib : RoombaLib) (w : World) (bs : List Nat)
    (hbytes : ∀ b ∈ bs, b ≤ 255) :
    (performCommand lib w (packetCommand bs)).2 = true ∧
    (performCommand lib w (packetCommand bs)).1.serial = (wakeup w).serial ++ bs ∧
    (performCommand lib w (packetCommand bs)).1.roombaState = w.roombaState := by
  have htok : ∀ t ∈ bs.map decimal, t ≠ [] ∧ ∀ c ∈ t, c ≠ blank := by
    intro t ht
    obtain ⟨b, hb, rfl⟩ := List.mem_map.1 ht
    have h := decimal_byte b (Nat.lt_succ_of_le (hbytes b hb))
    exact ⟨h.1, h.2.1⟩
  have hval : (bs.map decimal).map (fun t => (toByte (atoi t)).toNat) = bs := by
    rw [List.map_map]
    conv_rhs => rw [← List.map_id bs]
    apply List.map_congr_left
    intro b hb
    exact (decimal_byte b (Nat.lt_succ_of_le (hbytes b hb))).2.2
  unfold packetCommand
  rw [performCommand_packet, sendPacket_eq, strtokAll_joinBlank _ htok, hval]
  exact ⟨rfl, rfl, wakeup_roombaState w⟩

/-- C13, witness: `packet 128 2` writes the bytes 128 and 2 after the wake (mode
Passive in the sample state, so the wake writes 128 first). -/
theorem performCommand_packet_bytes_witness :
    packetCommand [128, 2] = "packet 128 2" ∧
    (performCommand RoombaLib.oi (World.init sampleState) (packetCommand [128, 2])).2 = true ∧
    (performCommand RoombaLib.oi (World.init sampleState) (packetCommand [128, 2])).1.serial
      = [128, 128, 2] := by
  have h := performCommand_packet_bytes RoombaLib.oi (World.init sampleState) [128, 2]
    (by decide)
  refine ⟨by decide, h.1, ?_⟩
  rw [h.2.1]
  decide

/-- C21, counterexample: the claim as stated is false. The accepted frame
`[19, 255, 156, 24, 20]` carries the distance -100 mm (the robot moved backwards)
and takes the accumulator from 0 down to -100. -/
theorem distanceSum_not_monotonic :
    ¬ ∀ (w : World) (inputs : List SensorInput) (x : SensorInput),
        (readSensorPacket (readSensorPackets w inputs) x.received x.packet x.packetLength
          x.now).distanceSum ≥ (readSensorPackets w inputs).distanceSum := by
  intro h
  have h0 := h (World.init sampleState) []
    { received := true, packet := Packet.ofList [19, 255, 156, 24, 20], packetLength := 5,
      now := 5000 }
  simp only [readSensorPackets, List.foldl_nil] at h0
  have hd : (readSensorPacket (World.init sampleState) true
      (Packet.ofList [19, 255, 156, 24, 20]) 5 5000).distanceSum = toInt32 (0 + -100) := by
    simp [readSensorPacket, snapshot, parseRoombaStateFromStreamPacket, scanLoop,
      Packet.ofList, RoombaState.zero, byteAt, wordAt, toInt16, World.init]
  rw [hd] at h0
  unfold toInt32 World.init at h0
  simp only at h0
  omega

/-- C21, amended: after every sequence of `readSensorPacket` calls, the next call
leaves `distanceSum` unchanged when the update is not accepted, and an accepted
update adds the snapshot's signed distance to it, wrapping at 32 bits; the value
after the update is greater than or equal to the value before whenever that
distance is not negative and the sum stays within the 32-bit range. -/
theorem readSensorPacket_distanceSum (w : World) (inputs : List SensorInput)
    (x : SensorInput) :
    (¬ (x.received = true ∧ (snapshot x.packet x.packetLength x.now).ok = true ∧
        (snapshot x.packet x.packetLength x.now).state.temp ≠ 0) →
      (readSensorPacket (readSensorPackets w inputs) x.received x.packet x.packetLength
        x.now).distanceSum = (readSensorPackets w inputs).distanceSum) ∧
    (x.received = true → (snapshot x.packet x.packetLength x.now).ok = true →
      (snapshot x.packet x.packetLength x.now).state.temp ≠ 0 →
      (readSensorPacket (readSensorPackets w inputs) x.received x.packet x.packetLength
        x.now).distanceSum =
        toInt32 ((readSensorPackets w inputs).distanceSum +
          (snapshot x.packet x.packetLength x.now).state.distance) ∧
      (0 ≤ (snapshot x.packet x.packetLength x.now).state.distance →
        -2147483648 ≤ (readSensorPackets w inputs).distanceSum →
        (readSensorPackets w inputs).distanceSum +
          (snapshot x.packet x.packetLength x.now).state.distance ≤ 2147483647 →
        (readSensorPacket (readSensorPackets w inputs) x.received x.packet x.packetLength
          x.now).distanceSum ≥ (readSensorPackets w inputs).distanceSum)) := by
  generalize readSensorPackets w inputs = v
  constructor
  · intro hrej
    unfold readSensorPacket
    by_cases hr : x.received = true
    · by_cases hok : (snapshot x.packet x.packetLength x.now).ok = true
      · have ht : (snapshot x.packet x.packetLength x.now).state.temp = 0 := by
          by_contra hne
          exact hrej ⟨hr, hok, hne⟩
        simp [hr, hok, ht]
      · simp [hr, hok]
    · simp [hr]
  · intro hr hok ht
    have hsum : (readSensorPacket v x.received x.packet x.packetLength x.now).distanceSum =
        toInt32 (v.distanceSum + (snapshot x.packet x.packetLength x.now).state.distance) := by
      unfold readSensorPacket
      simp [hr, hok, ht]
    refine ⟨hsum, ?_⟩
    intro h0 hlo hhi
    rw [hsum]
    unfold toInt32
    omega

/-- C21, witness: after one accepted frame with distance 300 mm, a second accepted
frame with distance 258 mm takes the accumulator from 300 to 558. -/
theorem readSensorPacket_distanceSum_witness :
    (readSensorPackets (World.init sampleState)
      [{ received := true, packet := Packet.ofList [19, 1, 44, 24, 20], packetLength := 5,
         now := 5000 }]).distanceSum = 300 ∧
    (readSensorPacket
      (readSensorPackets (World.init sampleState)
        [{ received := true, packet := Packet.ofList [19, 1, 44, 24, 20], packetLength := 5,
           now := 5000 }])
      true (Packet.ofList [19, 1, 2, 24, 20]) 5 6000).distanceSum = 558 := by
  have h := (readSensorPacket_distanceSum (World.init sampleState)
    [{ received := true, packet := Packet.ofList [19, 1, 44, 24, 20], packetLength := 5,
       now := 5000 }]
    { received := true, packet := Packet.ofList [19, 1, 2, 24, 20], packetLength := 5,
      now := 6000 }).2 rfl
    (by simp [snapshot, parseRoombaStateFromStreamPacket, scanLoop, Packet.ofList])
    (by simp [snapshot, parseRoombaStateFromStreamPacket, scanLoop, Packet.ofList,
          RoombaState.zero, byteAt, toInt16])
  have h1 : (readSensorPackets (World.init sampleState)
      [{ received := true, packet := Packet.ofList [19, 1, 44, 24, 20], packetLength := 5,
         now := 5000 }]).distanceSum = 300 := by
    have hd : (readSensorPackets (World.init sampleState)
        [{ received := true, packet := Packet.ofList [19, 1, 44, 24, 20], packetLength := 5,
           now := 5000 }]).distanceSum = toInt32 (0 + 300) := by
      simp only [readSensorPackets, List.foldl_cons, List.foldl_nil]
      simp [readSensorPacket, snapshot, parseRoombaStateFromStreamPacket,
        scanLoop, Packet.ofList, RoombaState.zero, byteAt, wordAt, toInt16, World.init]
    rw [hd]
    unfold toInt32
    omega
  have h2 : (snapshot (Packet.ofList [19, 1, 2, 24, 20]) 5 6000).state.distance = 258 := by
    simp [snapshot, parseRoombaStateFromStreamPacket, scanLoop, Packet.ofList,
      RoombaState.zero, byteAt, wordAt, toInt16]
  refine ⟨h1, ?_⟩
  rw [h.1, h1, h2]
  unfold toInt32
  omega

/-! ## Command dispatcher: frame condition -/

theorem scanLoop_progress (packet : Packet) (length : Int) (i : Nat) (state : RoombaState)
    (ids reads : List Nat) :
    ids.Pairwise (fun a b => a + 2 ≤ b) → (∀ p ∈ ids, p + 2 ≤ i) →
    (scanLoop packet length i state ids reads).ids.Pairwise (fun a b => a + 2 ≤ b) ∧
    ((scanLoop packet length i state ids reads).ok = true →
      ∀ p ∈ (scanLoop packet length i state ids reads).ids,
        p + 2 ≤ (scanLoop packet length i state ids reads).index) ∧
    2 * (scanLoop packet length i state ids reads).ids.length
      ≤ 2 * ids.length + (length.toNat - i) + 1 := by
  induction i, state, ids, reads using scanLoop.induct packet length
  case case18 i state ids reads hlt _ _ _ _ _ _ _ _ _ _ _ _ _ _ _ _ _ =>
    intro hgap hlast
    rw [scanLoop]
    simp_all
    refine ⟨?_, ?_⟩
    · rw [List.pairwise_append]
      exact ⟨hgap, List.pairwise_singleton _ _, by
        intro a ha b hb
        simp at hb
        subst hb
        exact hlast a ha⟩
    · omega
  case case19 i state ids reads h =>
    intro hgap hlast
    rw [scanLoop]
    simp only [h, dite_false]
    exact ⟨hgap, fun _ => hlast, by omega⟩
  all_goals
    rename_i i state ids reads hlt hm ih
    intro hgap hlast
    rw [scanLoop]
    simp only [hlt, hm, dite_true]
    have hp : (ids ++ [i]).Pairwise (fun a b => a + 2 ≤ b) := by
      rw [List.pairwise_append]
      exact ⟨hgap, List.pairwise_singleton _ _, by
        intro a ha b hb
        simp at hb
        subst hb
        exact hlast a ha⟩
    obtain ⟨h1, h2, h3⟩ := ih hp (by
      intro p hp
      simp at hp
      rcases hp with h | h
      · have := hlast p h
        omega
      · subst h
        omega)
    refine ⟨h1, h2, ?_⟩
    simp only [List.length_append, List.length_singleton] at h3
    omega

/-- C23: the scan loop terminates for every buffer and every length. The decoder is
a total function; the positions at which its iterations start are at least 2
apart, a successful run leaves the index at least 2 beyond each of them, and the
number of iterations is at most `length / 2` rounded up. -/
theorem scan_iterations_bounded (packet : Packet) (length now : Int) (state : RoombaState) :
    (parseRoombaStateFromStreamPacket packet length now state).ids.length
      ≤ (length.toNat + 1) / 2 ∧
    (parseRoombaStateFromStreamPacket packet length now state).ids.Pairwise
      (fun a b => a + 2 ≤ b) ∧
    ((parseRoombaStateFromStreamPacket packet length now state).ok = true →
      ∀ p ∈ (parseRoombaStateFromStreamPacket packet length now state).ids,
        p + 2 ≤ (parseRoombaStateFromStreamPacket packet length now state).index) := by
  unfold parseRoombaStateFromStreamPacket
  obtain ⟨h1, h2, h3⟩ := scanLoop_progress packet length 0 { state with timestamp := now }
    [] [] List.Pairwise.nil (by simp)
  refine ⟨?_, h1, h2⟩
  simp only [List.length_nil] at h3
  omega

/-- C23, witness: the five-byte frame `[19, 1, 2, 24, 5]` is decoded in two
iterations, at the positions 0 and 3, and the index ends at 5. -/
theorem scan_iterations_bounded_witness :
    (parseRoombaStateFromStreamPacket (Packet.ofList [19, 1, 2, 24, 5]) 5 0
      RoombaState.zero).ids = [0, 3] ∧
    (parseRoombaStateFromStreamPacket (Packet.ofList [19, 1, 2, 24, 5]) 5 0
      RoombaState.zero).index = 5 ∧
    (parseRoombaStateFromStreamPacket (Packet.ofList [19, 1, 2, 24, 5]) 5 0
      RoombaState.zero).ids.length ≤ 3 ∧
    (∀ p ∈ (parseRoombaStateFromStreamPacket (Packet.ofList [19, 1, 2, 24, 5]) 5 0
      RoombaState.zero).ids,
      p + 2 ≤ (parseRoombaStateFromStreamPacket (Packet.ofList [19, 1, 2, 24, 5]) 5 0
        RoombaState.zero).index) :=
  ⟨by simp [parseRoombaStateFromStreamPacket, scanLoop, Packet.ofList],
   by simp [parseRoombaStateFromStreamPacket, scanLoop, Packet.ofList],
   (scan_iterations_bounded (Packet.ofList [19, 1, 2, 24, 5]) 5 0 RoombaState.zero).1,
   (scan_iterations_bounded (Packet.ofList [19, 1, 2, 24, 5]) 5 0 RoombaState.zero).2.2
    (by simp [parseRoombaStateFromStreamPacket, scanLoop, Packet.ofList])⟩

/-! ## Battery level: theorems -/

theorem roundHalfEven_bounds (n d : Nat) (hd : 0 < d) :
    2 * (roundHalfEven n d * d) ≤ 2 * n + d ∧ 2 * n ≤ 2 * (roundHalfEven n d * d) + d := by
  have h := Nat.div_add_mod n d
  have hr := Nat.mod_lt n hd
  unfold roundHalfEven
  generalize n / d = q at *
  generalize n % d = r at *
  subst h
  split_ifs <;> constructor <;> nlinarith

theorem findShift_spec (fuel n d s k : Nat) (hk : k ≤ fuel)
    (h : 2 ^ 23 * d ≤ n * 2 ^ (s + k)) :
    2 ^ 23 * d ≤ n * 2 ^ findShift fuel n d s ∧ findShift fuel n d s ≤ s + k := by
  induction fuel generalizing s k with
  | zero =>
    have hk0 : k = 0 := by omega
    subst hk0
    simpa [findShift] using h
  | succ fuel ih =>
    unfold findShift
    split_ifs with ht
    · exact ⟨ht, by omega⟩
    · cases k with
      | zero => exact absurd (by simpa using h) ht
      | succ k =>
        have h2 := ih (s + 1) k (by omega) (by
          have : s + 1 + k = s + (k + 1) := by omega
          rw [this]; exact h)
        exact ⟨h2.1, by omega⟩

theorem two_stage_bounds (C D P Q M1 M2 K : ℚ)
    (hC : C ≤ 32767) (hD : 0 < D) (hP : 0 < P) (hQ : 0 < Q)
    (A1 : 2 ^ 23 * D ≤ C * P)
    (B1 : 2 * (M1 * D) ≤ 2 * (C * P) + D) (C1 : 2 * (C * P) ≤ 2 * (M1 * D) + D)
    (A2 : 2 ^ 23 * P ≤ M1 * 100 * Q)
    (B2 : 2 * (M2 * P) ≤ 2 * (M1 * 100 * Q) + P)
    (C2 : 2 * (M1 * 100 * Q) ≤ 2 * (M2 * P) + P)
    (hK1 : K * D ≤ C * 100) (hK2 : C * 100 + 1 ≤ (K + 1) * D) :
    M2 < (K + 1) * Q ∧ K * Q ≤ M2 + Q := by
  have h1 : 2 ^ 24 * (M1 * D) ≤ (2 ^ 24 + 1) * (C * P) := by linarith
  have h2 : 2 ^ 24 * (M2 * P) ≤ (2 ^ 24 + 1) * (M1 * 100 * Q) := by linarith
  have l1 : (2 ^ 24 - 1) * (C * P) ≤ 2 ^ 24 * (M1 * D) := by linarith
  have l2 : (2 ^ 24 - 1) * (M1 * 100 * Q) ≤ 2 ^ 24 * (M2 * P) := by linarith
  constructor
  · have e1 : 2 ^ 24 * (M2 * P) * (2 ^ 24 * D) ≤ (2 ^ 24 + 1) * (M1 * 100 * Q) * (2 ^ 24 * D) :=
      mul_le_mul_of_nonneg_right h2 (by positivity)
    have e2 : (2 ^ 24 + 1) * 100 * Q * (2 ^ 24 * (M1 * D))
        ≤ (2 ^ 24 + 1) * 100 * Q * ((2 ^ 24 + 1) * (C * P)) :=
      mul_le_mul_of_nonneg_left h1 (by positivity)
    have e3 : P * (2 ^ 48 * (M2 * D)) ≤ P * ((2 ^ 24 + 1) ^ 2 * 100 * C * Q) := by
      linarith
    have e4 : 2 ^ 48 * (M2 * D) ≤ (2 ^ 24 + 1) ^ 2 * 100 * C * Q :=
      le_of_mul_le_mul_left e3 hP
    have e5 : (2 ^ 24 + 1) ^ 2 * 100 * C < 2 ^ 48 * (C * 100 + 1) := by linarith
    have e6 : (2 ^ 24 + 1) ^ 2 * 100 * C * Q < 2 ^ 48 * ((K + 1) * D) * Q := by
      have : (2 ^ 24 + 1) ^ 2 * 100 * C < 2 ^ 48 * ((K + 1) * D) := by linarith
      exact mul_lt_mul_of_pos_right this hQ
    have e7 : D * (2 ^ 48 * M2) < D * (2 ^ 48 * ((K + 1) * Q)) := by linarith
    have e8 := lt_of_mul_lt_mul_left e7 hD.le
    linarith
  · have e1 : (2 ^ 24 - 1) * (M1 * 100 * Q) * (2 ^ 24 * D) ≤ 2 ^ 24 * (M2 * P) * (2 ^ 24 * D) :=
      mul_le_mul_of_nonneg_right l2 (by positivity)
    have hpos : (0 : ℚ) ≤ (2 ^ 24 - 1) * 100 * Q := by
      have h0 : (0 : ℚ) ≤ 2 ^ 24 - 1 := by norm_num
      positivity
    have e2 : (2 ^ 24 - 1) * 100 * Q * ((2 ^ 24 - 1) * (C * P))
        ≤ (2 ^ 24 - 1) * 100 * Q * (2 ^ 24 * (M1 * D)) :=
      mul_le_mul_of_nonneg_left l1 hpos
    have e3 : P * ((2 ^ 24 - 1) ^ 2 * 100 * C * Q) ≤ P * (2 ^ 48 * (M2 * D)) := by
      linarith
    have e4 : (2 ^ 24 - 1) ^ 2 * 100 * C * Q ≤ 2 ^ 48 * (M2 * D) :=
      le_of_mul_le_mul_left e3 hP
    have e5 : 2 ^ 48 * (C * 100 - D) ≤ (2 ^ 24 - 1) ^ 2 * 100 * C := by linarith
    have e6 : 2 ^ 48 * (K * D - D) * Q ≤ (2 ^ 24 - 1) ^ 2 * 100 * C * Q := by
      have : 2 ^ 48 * (K * D - D) ≤ (2 ^ 24 - 1) ^ 2 * 100 * C := by linarith
      exact mul_le_mul_of_nonneg_right this hQ.le
    have e7 : D * (2 ^ 48 * (K * Q)) ≤ D * (2 ^ 48 * (M2 + Q)) := by linarith
    have e8 := le_of_mul_le_mul_left e7 hD
    linarith

theorem floatPercent_bounds (c cap : Nat) (hc : c ≤ 32767) (hcap0 : 0 < cap)
    (hcap : cap ≤ 65535) :
    floatToInt (floatMul (floatDiv c cap) 100) ≤ c * 100 / cap ∧
    c * 100 / cap ≤ floatToInt (floatMul (floatDiv c cap) 100) + 1 := by
  by_cases hc0 : c = 0
  · subst hc0
    simp [floatDiv, floatMul, floatToInt, roundBinary32]
  have hc1 : 1 ≤ c := Nat.one_le_iff_ne_zero.2 hc0
  have hs1 := findShift_spec 149 c cap 0 39 (by norm_num) (by
    have h2 : (2 : Nat) ^ 23 * cap ≤ 2 ^ 23 * 65536 := Nat.mul_le_mul_left _ (by omega)
    have h3 : (2 : Nat) ^ 23 * 65536 = 1 * 2 ^ (0 + 39) := by norm_num
    calc 2 ^ 23 * cap ≤ 1 * 2 ^ (0 + 39) := by rw [← h3]; exact h2
      _ ≤ c * 2 ^ (0 + 39) := Nat.mul_le_mul_right _ hc1)
  have hr1 := roundHalfEven_bounds (c * 2 ^ findShift 149 c cap 0) cap hcap0
  generalize hS1 : findShift 149 c cap 0 = s1 at hs1 hr1
  generalize hM1 : roundHalfEven (c * 2 ^ s1) cap = m1 at hr1
  obtain ⟨A1, hs1le⟩ := hs1
  obtain ⟨B1, C1⟩ := hr1
  have hm1 : 1 ≤ m1 := by
    by_contra hlt
    have hz : m1 = 0 := by omega
    subst hz
    have : 2 ^ 23 * cap ≤ c * 2 ^ s1 := A1
    omega
  have hpow : (2 : Nat) ^ s1 ≤ 2 ^ 39 := Nat.pow_le_pow_right (by norm_num) (by omega)
  have hs2 := findShift_spec 149 (m1 * 100) (2 ^ s1) 0 62 (by norm_num) (by
    have h2 : (2 : Nat) ^ 23 * 2 ^ s1 ≤ 2 ^ 23 * 2 ^ 39 := Nat.mul_le_mul_left _ hpow
    have h3 : (2 : Nat) ^ 23 * 2 ^ 39 = 1 * 2 ^ (0 + 62) := by norm_num
    calc 2 ^ 23 * 2 ^ s1 ≤ 1 * 2 ^ (0 + 62) := by rw [← h3]; exact h2
      _ ≤ m1 * 100 * 2 ^ (0 + 62) := Nat.mul_le_mul_right _ (by omega))
  have hr2 := roundHalfEven_bounds (m1 * 100 * 2 ^ findShift 149 (m1 * 100) (2 ^ s1) 0) (2 ^ s1)
    (by positivity)
  generalize hS2 : findShift 149 (m1 * 100) (2 ^ s1) 0 = s2 at hs2 hr2
  generalize hM2 : roundHalfEven (m1 * 100 * 2 ^ s2) (2 ^ s1) = m2 at hr2
  obtain ⟨A2, -⟩ := hs2
  obtain ⟨B2, C2⟩ := hr2
  have hval : floatToInt (floatMul (floatDiv c cap) 100) = m2 / 2 ^ s2 := by
    have hm100 : m1 * 100 ≠ 0 := by omega
    simp [floatDiv, floatMul, floatToInt, roundBinary32, hc0, hS1, hM1, hm100, hS2, hM2]
  rw [hval]
  have hK1 : c * 100 / cap * cap ≤ c * 100 := Nat.div_mul_le_self _ _
  have hK2 : c * 100 + 1 ≤ (c * 100 / cap + 1) * cap := by
    have := Nat.lt_div_mul_add (a := c * 100) hcap0
    linarith
  generalize c * 100 / cap = k at hK1 hK2
  have hq := two_stage_bounds (c : ℚ) (cap : ℚ) ((2 : ℚ) ^ s1) ((2 : ℚ) ^ s2) (m1 : ℚ) (m2 : ℚ)
    (k : ℚ) (by exact_mod_cast hc) (by exact_mod_cast hcap0) (by positivity) (by positivity)
    (by exact_mod_cast A1) (by exact_mod_cast B1) (by exact_mod_cast C1)
    (by exact_mod_cast A2) (by exact_mod_cast B2) (by exact_mod_cast C2)
    (by exact_mod_cast hK1) (by exact_mod_cast hK2)
  obtain ⟨hu, hl⟩ := hq
  have hu' : m2 < (k + 1) * 2 ^ s2 := by exact_mod_cast hu
  have hl' : k * 2 ^ s2 ≤ m2 + 2 ^ s2 := by exact_mod_cast hl
  have hpos2 : 0 < 2 ^ s2 := by positivity
  constructor
  · have := (Nat.div_lt_iff_lt_mul hpos2).2 hu'
    omega
  · have h3 := Nat.lt_div_mul_add (a := m2) hpos2
    have h4 : k * 2 ^ s2 < (m2 / 2 ^ s2 + 2) * 2 ^ s2 := by linarith
    have h5 := Nat.lt_of_mul_lt_mul_right h4
    omega

theorem batteryLevel_of_nat (rs : RoombaState) (c cap : Nat)
    (hc : rs.charge = (c : Int)) (hcap : rs.capacity = (cap : Int))
    (hc1 : c ≤ 32767) (hcap0 : 0 < cap) (hcap1 : cap ≤ 65535) :
    batteryLevel rs = some ((floatToInt (floatMul (floatDiv c cap) 100) : Nat) : Int) := by
  have h16 : toInt16 rs.charge = (c : Int) := by
    rw [hc]
    unfold toInt16
    omega
  have hu16 : toUInt16 rs.capacity = (cap : Int) := by
    rw [hcap]
    unfold toUInt16
    omega
  unfold batteryLevel
  rw [h16, hu16]
  have hne : ¬ ((cap : Int) = 0) := by omega
  have hnn : ¬ ((c : Int) < 0) := by omega
  simp only [hne, if_false, hnn, Int.natAbs_ofNat]

/-- C18, counterexample: the claim as stated is false. For charge 1590 and capacity
3000 the integer part of `charge * 100 / capacity` is 53, but the single-precision
computation publishes 52. -/
theorem battery_level_not_always_integer_part :
    ¬ ∀ rs : RoombaState, 0 < rs.capacity → rs.capacity ≤ 65535 → 0 ≤ rs.charge →
        rs.charge ≤ 32767 → batteryLevel rs = some (rs.charge * 100 / rs.capacity) := by
  intro h
  have h0 := h { RoombaState.zero with charge := 1590, capacity := 3000 }
    (by decide) (by decide) (by decide) (by decide)
  exact absurd h0 (by decide)

/-- C18, amended: for every state with capacity above 0 and charge not below 0
(within the ranges of `uint16_t` and `int16_t`), the published battery percentage
`(int)(((float)charge / (float)capacity) * 100)`, computed in single precision,
is the integer part of `charge * 100 / capacity` or one less than it; for charge
1200 and capacity 3000 it is exactly 40. -/
theorem batteryLevel_near_integer_part (rs : RoombaState)
    (hcap0 : 0 < rs.capacity) (hcap1 : rs.capacity ≤ 65535)
    (hc0 : 0 ≤ rs.charge) (hc1 : rs.charge ≤ 32767) :
    (batteryLevel rs = some (rs.charge * 100 / rs.capacity) ∨
      batteryLevel rs = some (rs.charge * 100 / rs.capacity - 1)) ∧
    (rs.charge = 1200 → rs.capacity = 3000 → batteryLevel rs = some 40) := by
  obtain ⟨c, hc⟩ := Int.eq_ofNat_of_zero_le hc0
  obtain ⟨cap, hcap⟩ := Int.eq_ofNat_of_zero_le hcap0.le
  have hcn : c ≤ 32767 := by omega
  have hcapn0 : 0 < cap := by omega
  have hcapn1 : cap ≤ 65535 := by omega
  have hb := batteryLevel_of_nat rs c cap hc hcap hcn hcapn0 hcapn1
  have hbound := floatPercent_bounds c cap hcn hcapn0 hcapn1
  have hdiv : rs.charge * 100 / rs.capacity = ((c * 100 / cap : Nat) : Int) := by
    rw [hc, hcap]
    norm_cast
  constructor
  · rw [hb, hdiv]
    generalize floatToInt (floatMul (floatDiv c cap) 100) = r at hbound
    generalize c * 100 / cap = k at hbound
    by_cases hrk : r = k
    · left
      rw [hrk]
    · right
      have : (r : Int) = (k : Int) - 1 := by omega
      rw [this]
  · intro h1200 h3000
    have e1 : c = 1200 := by omega
    have e2 : cap = 3000 := by omega
    rw [hb, e1, e2]
    decide

/-- C18, witness: the sample state has charge 1200 and capacity 3000, and its
published battery level is 40, the integer part of 120000 / 3000. -/
theorem batteryLevel_near_integer_part_witness :
    batteryLevel sampleState = some 40 ∧
    (batteryLevel sampleState = some (sampleState.charge * 100 / sampleState.capacity) ∨
      batteryLevel sampleState
        = some (sampleState.charge * 100 / sampleState.capacity - 1)) :=
  ⟨(batteryLevel_near_integer_part sampleState (by decide) (by decide) (by decide)
      (by decide)).2 rfl rfl,
   (batteryLevel_near_integer_part sampleState (by decide) (by decide) (by decide)
      (by decide)).1⟩

end RoombaMqtt
